import Mathlib

/-!
Shallow embedding of the Bakong KHQR integration service
(`server.js`, `khqrService.js`, `bakongAPI.js`) and proofs about it.

JavaScript values that flow through the status-classification logic are
modelled by `JSVal`.  JS numbers are modelled as rationals; `NaN` is
represented by `Option` (`none` = NaN) in the result of the `Number`
conversion.  String-to-number conversion covers decimal integer literals;
every other string is modelled as NaN, which is indistinguishable from the
actual JS value in this code base because all numeric comparisons are
against the integers `0`, `1`, `3` and `-1`.
-/

/-- Model of a JavaScript value as it appears in the service's data flow. -/
inductive JSVal where
  | null
  | undef
  | num (q : Rat)
  | str (s : String)
  | bool (b : Bool)
deriving DecidableEq, Repr

/-- Model of JS truthiness (`NaN` does not occur among modelled numbers). -/
def jsTruthy : JSVal → Bool
  | .null => false
  | .undef => false
  | .num q => q != 0
  | .str s => s != ""
  | .bool b => b

/-- Model of JS `a || b`. -/
def jsOr (a b : JSVal) : JSVal := if jsTruthy a then a else b

/-- Model of JS `a ?? null` (`getProviderSummary` uses this shape). -/
def coalesceNull (a : JSVal) : JSVal :=
  match a with
  | .null => .null
  | .undef => .null
  | x => x

/-- Truthiness of an optional environment-variable string (`undefined` or `""` are falsy). -/
def optTruthy : Option String → Bool
  | some s => s != ""
  | none => false

/-- Model of JS `x || d` for an optional env string with a string default. -/
def jsOrDefaultStr (v : Option String) (d : String) : String :=
  match v with
  | some s => if s = "" then d else s
  | none => d

/-- Lowercasing as used by `String.prototype.toLowerCase` on the ASCII data here. -/
def lcase (s : String) : String := String.mk (s.toList.map Char.toLower)

/-- Uppercasing as used by `String.prototype.toUpperCase` on the ASCII data here. -/
def ucase (s : String) : String := String.mk (s.toList.map Char.toUpper)

/-- Characters remaining after JS `String.prototype.trim`. -/
def trimChars (l : List Char) : List Char :=
  ((l.dropWhile Char.isWhitespace).reverse.dropWhile Char.isWhitespace).reverse

/-- Model of JS `String.prototype.trim`. -/
def jsTrim (s : String) : String := String.mk (trimChars s.toList)

/-- Digit-string to natural number (all characters must be decimal digits). -/
def digitsToNat (ds : List Char) : Option Nat :=
  match ds with
  | [] => none
  | _ =>
    if ds.all Char.isDigit then
      some (ds.foldl (fun acc c => acc * 10 + (c.toNat - 48)) 0)
    else none

/-- Model of JS `Number(string)`: empty/whitespace gives `0`; signed decimal
integer literals convert; every other string is NaN (`none`).  Non-integer
numeric literals are also mapped to NaN; the service only ever compares the
conversion result against integers, where both give an unequal comparison. -/
def strToNumber (s : String) : Option Rat :=
  let t := jsTrim s
  if t = "" then some 0
  else
    match t.toList with
    | '-' :: ds => (digitsToNat ds).map (fun n => -(n : Rat))
    | '+' :: ds => (digitsToNat ds).map (fun n => (n : Rat))
    | ds => (digitsToNat ds).map (fun n => (n : Rat))

/-- Model of JS `Number(v)`; `none` models NaN. -/
def jsToNumber : JSVal → Option Rat
  | .null => some 0
  | .undef => none
  | .num q => some q
  | .str s => strToNumber s
  | .bool b => some (if b then 1 else 0)

/-- Formatting of a JS number; exact for the integers that occur in this code. -/
def ratToJsString (q : Rat) : String :=
  if q.den = 1 then toString q.num else toString q

/-- Model of JS `String(v)`. -/
def jsToString : JSVal → String
  | .null => "null"
  | .undef => "undefined"
  | .num q => ratToJsString q
  | .str s => s
  | .bool b => if b then "true" else "false"

/-- Does `hay` start with `pat`, character by character. -/
def startsWithChars : List Char → List Char → Bool
  | _, [] => true
  | [], _ :: _ => false
  | a :: as, b :: bs => a == b && startsWithChars as bs

/-- Does `hay` contain `pat` as a contiguous run of characters. -/
def containsChars : List Char → List Char → Bool
  | [], pat => pat.isEmpty
  | a :: as, pat => startsWithChars (a :: as) pat || containsChars as pat

/-- Substring test on strings (used for `baseUrl.includes('-dev.')` and friends). -/
def strContains (s pat : String) : Bool := containsChars s.toList pat.toList

/-- Alternatives of the pending-like regular expression in `server.js`:
`/(not found|not yet|pending|processing|wait)/i`. -/
def pendingPats : List String := ["not found", "not yet", "pending", "processing", "wait"]

/-- Case-insensitive test of the pending-like regular expression against `s`. -/
def pendingRegexTest (s : String) : Bool :=
  pendingPats.any (fun p => containsChars (s.toList.map Char.toLower) p.toList)


/-!
Provider results.  `bakongAPI.js` returns JSON objects carrying
`responseCode`, `errorCode`, `responseMessage` and optionally `data`.
Within the modelled space of JSON bodies, `data` is an object with the
fields the service reads (`hash`, `fromAccountId`, `shortLink`); a field
that is absent is `.undef`.
-/

/-- Fields of the provider's `data` object that the service reads. -/
structure TxData where
  hash : JSVal := .undef
  fromAccountId : JSVal := .undef
  shortLink : JSVal := .undef
deriving DecidableEq, Repr

/-- Model of a provider/bakongAPI result object. -/
structure ApiResult where
  responseCode : JSVal := .undef
  errorCode : JSVal := .undef
  responseMessage : JSVal := .undef
  data : Option TxData := none
deriving DecidableEq, Repr

/-- Embedding of `isLikelyPendingMessage` from `server.js` (lines 52-58):
non-strings and whitespace-only strings are rejected, then the pending-like
regular expression is tested. -/
def isLikelyPendingMessage (message : JSVal) : Bool :=
  match message with
  | .str s => if jsTrim s = "" then false else pendingRegexTest s
  | _ => false

/-- Normalisation of `result.responseMessage` in `resolvePaymentStatus`:
`typeof result.responseMessage === 'string' ? result.responseMessage : ''`. -/
def normMessage (v : JSVal) : String :=
  match v with
  | .str s => s
  | _ => ""

/-- Embedding of `resolvePaymentStatus` from `server.js` (lines 60-94).
`none` models a non-object result (`!result || typeof result !== 'object'`). -/
def resolvePaymentStatus (result : Option ApiResult) : String :=
  match result with
  | none => "error"
  | some r =>
    let responseCode := jsToNumber r.responseCode
    let errorCodeNumber := jsToNumber r.errorCode
    let responseMessage := normMessage r.responseMessage
    if responseCode = some 0 then "completed"
    else if errorCodeNumber = some 3 then "failed"
    else if errorCodeNumber = some 1 ∨ isLikelyPendingMessage (.str responseMessage) = true then
      "pending"
    else if ["MISSING_TOKEN", "TIMEOUT", "NETWORK_ERROR", "INVALID_RESPONSE"].contains
        (jsToString r.errorCode) then "error"
    else if responseCode = some (-1) then "error"
    else "error"

/-- Modelled from the spec claim's words (for comparison with
`resolvePaymentStatus`): a message "matches a pending-like pattern" when it is
a string containing one of not found / not yet / pending / processing / wait,
case-insensitively. -/
def specPendingMessage (v : JSVal) : Bool :=
  match v with
  | .str s => pendingRegexTest s
  | _ => false

/-- Modelled from the spec claim's words (for comparison with
`resolvePaymentStatus`): 'completed' iff responseCode is numerically 0;
otherwise 'failed' if errorCode is numerically 3; otherwise 'pending' if
errorCode is numerically 1 or the responseMessage matches a pending-like
pattern; otherwise 'error'. -/
def resolvePaymentStatusSpec (result : Option ApiResult) : String :=
  match result with
  | none => "error"
  | some r =>
    if jsToNumber r.responseCode = some 0 then "completed"
    else if jsToNumber r.errorCode = some 3 then "failed"
    else if jsToNumber r.errorCode = some 1 ∨ specPendingMessage r.responseMessage = true then
      "pending"
    else "error"

/-- Embedding of `getProviderSummary` from `server.js`: each field of a
(`?.`-accessed) result object coalesced with `?? null`. -/
structure ProviderSummary where
  responseCode : JSVal
  errorCode : JSVal
  responseMessage : JSVal
deriving DecidableEq, Repr

/-- Embedding of `getProviderSummary` applied to a result object. -/
def getProviderSummary (r : ApiResult) : ProviderSummary :=
  { responseCode := coalesceNull r.responseCode
    errorCode := coalesceNull r.errorCode
    responseMessage := coalesceNull r.responseMessage }

/-- Embedding of `buildStatusMessage` from `server.js` (lines 102-116). -/
def buildStatusMessage (status : String) (result : Option ApiResult) : JSVal :=
  let msg : JSVal :=
    match result with
    | some r => r.responseMessage
    | none => .undef
  if status = "completed" then .str "Payment completed"
  else if status = "failed" then jsOr msg (.str "Payment failed")
  else if status = "pending" then jsOr msg (.str "Payment is still pending")
  else jsOr msg (.str "Unable to confirm payment status due to provider error")

/-- Embedding of `appendWarning` from `server.js` (the second argument is
always a string literal at every call site). -/
def appendWarning (existingWarning : JSVal) (nextWarning : String) : JSVal :=
  if jsTruthy existingWarning then
    .str (jsToString existingWarning ++ " | " ++ nextWarning)
  else .str nextWarning


/-!
Embedding of `khqrService.js`.  The external `bakong-khqr` library and the
`crypto` module are abstracted: hash functions become parameters
(`CryptoEnv`), the library's currency constants `khqrData.currency.khr/usd`
become the two-element type `KhqrCurrency`, and a library invocation's
outcome becomes the `LibResult` oracle argument.
-/

/-- Abstraction of the node `crypto` hash functions used by `KHQRService`. -/
structure CryptoEnv where
  md5hex : String → String
  sha256hex : String → String

/-- Abstraction of the external library's `khqrData.currency.khr/usd` constants. -/
inductive KhqrCurrency where
  | khr
  | usd
deriving DecidableEq, Repr

/-- Embedding of `KHQRService.generateMD5`: lowercase hex MD5 of the QR string
(the digest computation itself lives in the external `crypto` module). -/
def generateMD5 (crypto : CryptoEnv) (qrString : String) : String :=
  crypto.md5hex qrString

/-- Embedding of `KHQRService.generateShortHash`: first 8 characters of the
lowercase hex SHA-256 of the QR string. -/
def generateShortHash (crypto : CryptoEnv) (qrString : String) : String :=
  (crypto.sha256hex qrString).take 8

/-- Embedding of `KHQRService.resolveCurrency`:
`currency === 'KHR' ? khqrData.currency.khr : khqrData.currency.usd`. -/
def resolveCurrency (currency : JSVal) : KhqrCurrency :=
  if currency = .str "KHR" then .khr else .usd

/-- Embedding of `KHQRService.validateRequiredFields`. -/
def validateRequiredFields (accountId merchantName : JSVal) : Option String :=
  if jsTruthy accountId = false ∨ jsTrim (jsToString accountId) = "" then
    some "Bakong account ID is required"
  else if jsTruthy merchantName = false ∨ jsTrim (jsToString merchantName) = "" then
    some "Merchant name is required"
  else none

/-- Embedding of `normalizeOptionalText` from `server.js`: non-strings give
`null`; strings trim, and empty trims give `null`. -/
def normalizeOptionalText (value : JSVal) : Option String :=
  match value with
  | .str s => if jsTrim s = "" then none else some (jsTrim s)
  | _ => none

/-- Named arguments of `KHQRService.generateIndividualQR` /
`generateMerchantQR` (destructuring defaults are applied inside the
functions, as in JS they fire on `undefined`). -/
structure GenArgs where
  accountId : JSVal := .undef
  merchantName : JSVal := .undef
  merchantCity : JSVal := .undef
  amount : Rat := 0
  currency : JSVal := .undef
  billNumber : JSVal := .undef
  mobileNumber : JSVal := .undef
  storeLabel : JSVal := .undef
  terminalLabel : JSVal := .undef
  purposeOfTransaction : JSVal := .undef
  merchantId : JSVal := .undef
  acquiringBank : JSVal := .undef
deriving DecidableEq, Repr

/-- The `IndividualInfo` object handed to the external library: required
fields plus the `optionalData` actually included. -/
structure IndividualInfo where
  accountId : JSVal
  merchantName : JSVal
  merchantCity : JSVal
  currency : KhqrCurrency
  amount : Option Rat
  expirationTimestamp : Option Nat
  billNumber : Option JSVal
  mobileNumber : Option JSVal
  storeLabel : Option JSVal
  terminalLabel : Option JSVal
  purposeOfTransaction : Option JSVal
deriving DecidableEq, Repr

/-- The `MerchantInfo` object handed to the external library. -/
structure MerchantInfo where
  accountId : JSVal
  merchantName : JSVal
  merchantCity : JSVal
  merchantId : JSVal
  acquiringBank : JSVal
  currency : KhqrCurrency
  amount : Option Rat
  expirationTimestamp : Option Nat
  billNumber : Option JSVal
  mobileNumber : Option JSVal
  storeLabel : Option JSVal
  terminalLabel : Option JSVal
deriving DecidableEq, Repr

/-- Oracle for the external library call `bakongKHQR.generateIndividual` /
`generateMerchant`: its status code, QR payload and error message. -/
structure LibResult where
  statusCode : Int
  qr : String
  message : String
deriving DecidableEq, Repr

/-- Return shape of the QR-generation service functions. -/
inductive GenQRResult where
  | ok (qrString md5 : String)
  | err (error : String)
deriving DecidableEq, Repr

/-- Outcome of `generateIndividualQR`: the info sent to the library (if the
call got that far) and the returned value. -/
structure GenIndividualOutcome where
  sentInfo : Option IndividualInfo
  result : GenQRResult
deriving DecidableEq, Repr

/-- Outcome of `generateMerchantQR`. -/
structure GenMerchantOutcome where
  sentInfo : Option MerchantInfo
  result : GenQRResult
deriving DecidableEq, Repr

/-- Embedding of `KHQRService.generateIndividualQR` (khqrService.js lines
28-88).  `nowMs` stands for `Date.now()`; `libRes` is the external library
call's outcome. -/
def generateIndividualQR (crypto : CryptoEnv) (nowMs : Nat) (args : GenArgs)
    (libRes : LibResult) : GenIndividualOutcome :=
  let merchantCity := if args.merchantCity = .undef then .str "Phnom Penh" else args.merchantCity
  let currency := if args.currency = .undef then .str "USD" else args.currency
  let billNumber := if args.billNumber = .undef then .null else args.billNumber
  let mobileNumber := if args.mobileNumber = .undef then .null else args.mobileNumber
  let storeLabel := if args.storeLabel = .undef then .null else args.storeLabel
  let terminalLabel := if args.terminalLabel = .undef then .null else args.terminalLabel
  let purpose := if args.purposeOfTransaction = .undef then .null else args.purposeOfTransaction
  match validateRequiredFields args.accountId args.merchantName with
  | some err => { sentInfo := none, result := .err err }
  | none =>
    let resolvedCurrency := resolveCurrency currency
    let info : IndividualInfo :=
      { accountId := args.accountId
        merchantName := args.merchantName
        merchantCity := merchantCity
        currency := resolvedCurrency
        amount := if args.amount > 0 then some args.amount else none
        expirationTimestamp := if args.amount > 0 then some (nowMs + 10 * 60 * 1000) else none
        billNumber := if jsTruthy billNumber then some billNumber else none
        mobileNumber := if jsTruthy mobileNumber then some mobileNumber else none
        storeLabel := if jsTruthy storeLabel then some storeLabel else none
        terminalLabel := if jsTruthy terminalLabel then some terminalLabel else none
        purposeOfTransaction := if jsTruthy purpose then some purpose else none }
    if libRes.statusCode = 0 then
      { sentInfo := some info, result := .ok libRes.qr (generateMD5 crypto libRes.qr) }
    else
      { sentInfo := some info, result := .err libRes.message }

/-- Embedding of `KHQRService.generateMerchantQR` (khqrService.js lines
93-154). -/
def generateMerchantQR (crypto : CryptoEnv) (nowMs : Nat) (args : GenArgs)
    (libRes : LibResult) : GenMerchantOutcome :=
  let merchantCity := if args.merchantCity = .undef then .str "Phnom Penh" else args.merchantCity
  let currency := if args.currency = .undef then .str "USD" else args.currency
  let billNumber := if args.billNumber = .undef then .null else args.billNumber
  let mobileNumber := if args.mobileNumber = .undef then .null else args.mobileNumber
  let storeLabel := if args.storeLabel = .undef then .null else args.storeLabel
  let terminalLabel := if args.terminalLabel = .undef then .null else args.terminalLabel
  match validateRequiredFields args.accountId args.merchantName with
  | some err => { sentInfo := none, result := .err err }
  | none =>
    let resolvedCurrency := resolveCurrency currency
    let info : MerchantInfo :=
      { accountId := args.accountId
        merchantName := args.merchantName
        merchantCity := merchantCity
        merchantId := args.merchantId
        acquiringBank := args.acquiringBank
        currency := resolvedCurrency
        amount := if args.amount > 0 then some args.amount else none
        expirationTimestamp := if args.amount > 0 then some (nowMs + 10 * 60 * 1000) else none
        billNumber := if jsTruthy billNumber then some billNumber else none
        mobileNumber := if jsTruthy mobileNumber then some mobileNumber else none
        storeLabel := if jsTruthy storeLabel then some storeLabel else none
        terminalLabel := if jsTruthy terminalLabel then some terminalLabel else none }
    if libRes.statusCode = 0 then
      { sentInfo := some info, result := .ok libRes.qr (generateMD5 crypto libRes.qr) }
    else
      { sentInfo := some info, result := .err libRes.message }

/-!
Embedding of `bakongAPI.js` (`BakongAPIService`).  `fetch` is abstracted by
an oracle `Bool → FetchOutcome` giving, for a given address family
(`true` = the forced-IPv4 agent), what the network does with this request.
Each executed `fetch` is recorded in a `FetchCall` trace.
-/

/-- JSON payloads of the service's request bodies. -/
inductive Payload where
  | md5Query (md5 : String)
  | hashQuery (hash : String)
  | shortHashQuery (hash : String) (amount : Rat) (currency : String)
  | accountQuery (accountId : String)
  | deeplinkQuery (qr : String)
deriving DecidableEq, Repr

/-- Outcome of one `fetch` attempt.  `reply body = none` models
`response.json()` throwing. -/
inductive FetchOutcome where
  | abortError
  | thrown (code : JSVal) (message : String)
  | reply (ok : Bool) (status : Int) (body : Option ApiResult)
deriving DecidableEq, Repr

/-- Record of one executed `fetch`. -/
structure FetchCall where
  endpoint : String
  payload : Payload
  authHeader : Bool
  ipv4Agent : Bool
deriving DecidableEq, Repr

/-- Configuration of `BakongAPIService` (constructor plus env parsing). -/
structure ApiEnv where
  apiToken : Option String
  baseUrl : String
  timeoutMs : Int := 10000
  statusTimeoutMs : Int := 18000
  deeplinkTimeoutMs : Int := 3500
  retryAttempts : Int := 1
  retryDelayMs : Int := 450
  enableIpv4Fallback : Bool := true

/-- Options object threaded through `post`/`postWithRetry`. -/
structure PostOptions where
  timeoutMs : Option Int := none
  forceIpv4 : Bool := false
  ipv4FallbackTried : Bool := false
  retries : Option Int := none
  retryDelayMs : Option Int := none
deriving DecidableEq, Repr

/-- Embedding of `isUsingDevEnvironment`. -/
def isUsingDevEnvironment (env : ApiEnv) : Bool := strContains env.baseUrl "-dev."

/-- Result returned when an authenticated call is made without a token. -/
def missingTokenResult : ApiResult :=
  { responseCode := .num (-1)
    errorCode := .str "MISSING_TOKEN"
    responseMessage := .str "Bakong API token is missing" }

/-- Network error codes that trigger the IPv4 fallback (bakongAPI.js lines
428-434). -/
def retryableNetCodes : List String :=
  ["ENETUNREACH", "EHOSTUNREACH", "ETIMEDOUT", "ECONNREFUSED", "ECONNRESET"]

/-- Timeout result of `post` (bakongAPI.js lines 444-451). -/
def timeoutResult (timeoutMs : Int) (ipv4FallbackTried : Bool) : ApiResult :=
  { responseCode := .num (-1)
    errorCode := .str "TIMEOUT"
    responseMessage := .str
      (if ipv4FallbackTried then
        "Bakong API request timed out after " ++ toString timeoutMs ++ "ms (including IPv4 fallback)"
      else
        "Bakong API request timed out after " ++ toString timeoutMs ++ "ms") }

/-- Network-error result of `post` (`error.message || 'Network request failed'`). -/
def networkErrorResult (message : String) : ApiResult :=
  { responseCode := .num (-1)
    errorCode := .str "NETWORK_ERROR"
    responseMessage := .str (if message = "" then "Network request failed" else message) }

/-- Result of `post` when `response.json()` throws. -/
def invalidResponseResult (status : Int) : ApiResult :=
  { responseCode := .num (-1)
    errorCode := .str "INVALID_RESPONSE"
    responseMessage := .str ("Invalid response from Bakong API (HTTP " ++ toString status ++ ")") }

/-- Result of `post` on a non-ok HTTP response whose body has no
`responseCode`.  The raw parsed body is re-exposed as `data`; within the
modelled space of bodies it is an object with no recognised `data` fields. -/
def httpFailResult (status : Int) : ApiResult :=
  { responseCode := .num (-1)
    errorCode := .num status
    responseMessage := .str ("Bakong API request failed (HTTP " ++ toString status ++ ")")
    data := some {} }

/-- Does this `fetch` outcome belong to the error class that (when
`canTryIpv4Fallback` holds) triggers the IPv4 retry: an `AbortError`, or a
thrown error whose `code` is one of the retryable network codes. -/
def fallbackWorthy : FetchOutcome → Bool
  | .abortError => true
  | .thrown code _ => retryableNetCodes.contains (jsToString code)
  | .reply _ _ _ => false

/-- The value `post` returns for a `fetch` outcome it does not retry
(bakongAPI.js lines 444-482). -/
def settleOutcome (timeoutMs : Int) (ipv4FallbackTried : Bool) : FetchOutcome → ApiResult
  | .abortError => timeoutResult timeoutMs ipv4FallbackTried
  | .thrown _ message => networkErrorResult message
  | .reply _ status none => invalidResponseResult status
  | .reply ok status (some r) =>
    if ok = false ∧ r.responseCode = .undef then httpFailResult status else r

/-- Embedding of `BakongAPIService.post` (bakongAPI.js lines 393-483).
Returns the JS return value together with the trace of executed `fetch`
calls.  The source tests `canTryIpv4Fallback && (error.name === 'AbortError'
|| retryableNetworkError)` inside each catch branch; here the branch on the
outcome class (`fallbackWorthy`) is factored out of the per-outcome handling
(`settleOutcome`), which is the same decision tree.  The recursive
IPv4-fallback call passes `forceIpv4 := true`, which makes
`canTryIpv4Fallback` false, so the recursion depth is at most one. -/
def post (env : ApiEnv) (endpoint : String) (payload : Payload) (requiresAuth : Bool)
    (opts : PostOptions) (oracle : Bool → FetchOutcome) : ApiResult × List FetchCall :=
  if requiresAuth = true ∧ optTruthy env.apiToken = false then
    (missingTokenResult, [])
  else
    let timeoutMs := opts.timeoutMs.getD env.timeoutMs
    let call : FetchCall :=
      { endpoint := endpoint, payload := payload, authHeader := requiresAuth
        ipv4Agent := opts.forceIpv4 }
    if h : (env.enableIpv4Fallback = true ∧ opts.forceIpv4 = false) ∧
        fallbackWorthy (oracle opts.forceIpv4) = true then
      let rest := post env endpoint payload requiresAuth
        { opts with forceIpv4 := true, ipv4FallbackTried := true } oracle
      (rest.1, call :: rest.2)
    else
      (settleOutcome timeoutMs opts.ipv4FallbackTried (oracle opts.forceIpv4), [call])
termination_by (if opts.forceIpv4 then 1 else 2 : Nat)
decreasing_by
  simp [h.1.2]

/-- Embedding of `BakongAPIService.isRetryable`. -/
def isRetryable (r : ApiResult) : Bool :=
  (jsToNumber r.responseCode == some (-1)) &&
    (["TIMEOUT", "NETWORK_ERROR", "INVALID_RESPONSE"].contains (jsToString r.errorCode))

/-- Loop of `postWithRetry` (`for attempt = 1..retries`); `n` is the number
of iterations remaining, `i` the index of the next attempt in the oracle
sequence, `last` the most recent result and `acc` the attempts so far. -/
def postWithRetryLoop (env : ApiEnv) (endpoint : String) (payload : Payload)
    (requiresAuth : Bool) (opts : PostOptions) (oracles : Nat → Bool → FetchOutcome) :
    Nat → Nat → ApiResult → List (List FetchCall) → ApiResult × List (List FetchCall)
  | 0, _, last, acc => (last, acc)
  | n + 1, i, _, acc =>
    let r := post env endpoint payload requiresAuth opts (oracles i)
    if isRetryable r.1 = true then
      postWithRetryLoop env endpoint payload requiresAuth opts oracles n (i + 1) r.1 (acc ++ [r.2])
    else (r.1, acc ++ [r.2])

/-- Embedding of `BakongAPIService.postWithRetry` (bakongAPI.js lines
497-515); `oracles i` is the network behaviour of the `i`-th `post`. -/
def postWithRetry (env : ApiEnv) (endpoint : String) (payload : Payload)
    (requiresAuth : Bool) (opts : PostOptions) (oracles : Nat → Bool → FetchOutcome) :
    ApiResult × List (List FetchCall) :=
  let retries : Int := opts.retries.getD env.retryAttempts
  let r0 := post env endpoint payload requiresAuth opts (oracles 0)
  if isRetryable r0.1 = false ∨ retries ≤ 0 then (r0.1, [r0.2])
  else postWithRetryLoop env endpoint payload requiresAuth opts oracles retries.toNat 1 r0.1 [r0.2]

/-- Embedding of `checkTransactionByMD5`. -/
def checkTransactionByMD5 (env : ApiEnv) (md5Hash : String)
    (oracles : Nat → Bool → FetchOutcome) : ApiResult × List (List FetchCall) :=
  postWithRetry env "/v1/check_transaction_by_md5" (.md5Query md5Hash) true
    { timeoutMs := some env.statusTimeoutMs } oracles

/-- Embedding of `checkTransactionByHash`. -/
def checkTransactionByHash (env : ApiEnv) (hash : String)
    (oracles : Nat → Bool → FetchOutcome) : ApiResult × List (List FetchCall) :=
  postWithRetry env "/v1/check_transaction_by_hash" (.hashQuery hash) true
    { timeoutMs := some env.statusTimeoutMs } oracles

/-- Embedding of `checkTransactionByShortHash`. -/
def checkTransactionByShortHash (env : ApiEnv) (shortHash : String) (amount : Rat)
    (currency : String) (oracles : Nat → Bool → FetchOutcome) :
    ApiResult × List (List FetchCall) :=
  postWithRetry env "/v1/check_transaction_by_short_hash"
    (.shortHashQuery shortHash amount currency) true
    { timeoutMs := some env.statusTimeoutMs } oracles

/-- Embedding of `checkBakongAccount` (a direct `post`, no retry wrapper). -/
def checkBakongAccount (env : ApiEnv) (accountId : String)
    (oracle : Bool → FetchOutcome) : ApiResult × List FetchCall :=
  post env "/v1/check_bakong_account" (.accountQuery accountId) true {} oracle

/-- Embedding of `generateDeeplink` (unauthenticated, deeplink timeout). -/
def generateDeeplink (env : ApiEnv) (qrString : String)
    (oracle : Bool → FetchOutcome) : ApiResult × List FetchCall :=
  post env "/v1/generate_deeplink_by_qr" (.deeplinkQuery qrString) false
    { timeoutMs := some env.deeplinkTimeoutMs } oracle

/-!
Embedding of the server state (`server.js`): the in-memory `payments` map is
an insertion-ordered association list, with `Map.get`/`Map.set` semantics.
-/

/-- The `lastProviderError` object stored on a recoverable provider error. -/
structure ProviderErrorInfo where
  checkedAt : String
  checkedBy : String
  responseCode : JSVal
  errorCode : JSVal
  responseMessage : JSVal
deriving DecidableEq, Repr

/-- A stored payment record (`paymentInfo` in `server.js` plus the fields
later mutated onto it). -/
structure Payment where
  billNumber : String
  amount : Rat
  currency : String
  qrString : String
  md5 : String
  description : Option String
  status : String
  createdAt : String
  deeplinkUrl : JSVal
  completedAt : JSVal := .undef
  transactionHash : JSVal := .undef
  fromAccount : JSVal := .undef
  manualSettledAt : JSVal := .undef
  lastProviderError : Option ProviderErrorInfo := none
deriving DecidableEq, Repr

/-- The in-memory `payments` store. -/
abbrev PMap := List (String × Payment)

/-- Model of `payments.get(k)`. -/
def mapGet (m : PMap) (k : String) : Option Payment :=
  (List.find? (fun kv => kv.1 == k) m).map (fun kv => kv.2)

/-- Model of `payments.set(k, v)`: replace in place if the key is present,
append otherwise. -/
def mapSet (m : PMap) (k : String) (v : Payment) : PMap :=
  if (List.find? (fun kv => kv.1 == k) m).isSome then
    List.map (fun kv => if kv.1 == k then (k, v) else kv) m
  else m ++ [(k, v)]


/-!
Embedding of the route handlers in `server.js`.  Timestamps are supplied by
the environment (`now` = `new Date().toISOString()`, `nowMs` = `Date.now()`),
and the awaited `bakongAPI` results are oracle parameters (the HTTP client
itself is modelled separately above).
-/

/-- Server-side configuration and ambient state. -/
structure ServerEnv where
  crypto : CryptoEnv
  apiToken : Option String
  accountId : Option String
  merchantName : Option String
  merchantCity : Option String
  merchantPhone : Option String
  demoManualSettle : Option String
  deeplinkMode : Option String
  apiBaseUrl : Option String
  now : String
  nowMs : Nat

/-- Embedding of `isDemoManualSettleEnabled`:
`String(process.env.DEMO_MANUAL_SETTLE_ENABLED || 'true').toLowerCase() !== 'false'`. -/
def isDemoManualSettleEnabled (env : ServerEnv) : Bool :=
  lcase (jsOrDefaultStr env.demoManualSettle "true") != "false"

/-- Embedding of `shouldGenerateDeeplinkInBackground`:
`String(process.env.DEEPLINK_MODE || 'async').toLowerCase() !== 'sync'`. -/
def shouldGenerateDeeplinkInBackground (env : ServerEnv) : Bool :=
  lcase (jsOrDefaultStr env.deeplinkMode "async") != "sync"

/-- Strip trailing `/` characters (`baseUrl.replace(/\/+$/, '')`). -/
def stripTrailingSlashes (s : String) : String :=
  String.mk ((s.toList.reverse.dropWhile (fun c => c == '/')).reverse)

/-- The `BakongAPIService` base URL as constructed in `server.js` (the
constructor default fires on `undefined` only). -/
def serverBaseUrl (env : ServerEnv) : String :=
  stripTrailingSlashes (match env.apiBaseUrl with
    | some s => s
    | none => "https://api-bakong.nbc.org.kh")

/-- Whether the server-side `bakongAPI.isUsingDevEnvironment()` reports the
DEV environment. -/
def serverUsingDev (env : ServerEnv) : Bool :=
  strContains (serverBaseUrl env) "-dev."

/-- Provider calls the check handler can make. -/
inductive BakongCall where
  | byMD5 (md5 : String)
  | byShortHash (hash : String) (amount : Rat) (currency : String)
deriving DecidableEq, Repr

/-- The `provider.fallback` block of the check response. -/
structure FallbackBlock where
  checkedBy : String
  summary : ProviderSummary
deriving DecidableEq, Repr

/-- The `provider` block of the check response. -/
structure ProviderBlock where
  checkedBy : String
  summary : ProviderSummary
  fallback : Option FallbackBlock
deriving DecidableEq, Repr

/-- The `data` field of the check response: provider data, or the literal
object built on the manual-settle path. -/
inductive RespData where
  | fromProvider (d : Option TxData)
  | manual (hash : JSVal) (fromAccountId : JSVal) (amount : Rat) (currency : String)
deriving DecidableEq, Repr

/-- JSON body of a successful `/api/payment/check` response. -/
structure CheckBody where
  success : Bool
  status : String
  data : RespData
  deeplinkUrl : JSVal
  message : JSVal
  errorCode : JSVal
  checkedBy : String
  provider : Option ProviderBlock
  warning : JSVal
  manualSettleEnabled : Bool
deriving DecidableEq, Repr

/-- Response of the check handler. -/
inductive CheckResp where
  | badRequest (error : String)
  | ok (body : CheckBody)
deriving DecidableEq, Repr

/-- Everything the check handler produces: HTTP response, updated store, and
the provider lookups it performed. -/
structure CheckOutcome where
  response : CheckResp
  newPayments : PMap
  calls : List BakongCall
deriving DecidableEq, Repr

/-- Status field of a check response, when it is a JSON 200. -/
def respStatus : CheckResp → Option String
  | .badRequest _ => none
  | .ok b => some b.status

/-- Success field of a check response, when it is a JSON 200. -/
def respSuccess : CheckResp → Option Bool
  | .badRequest _ => none
  | .ok b => some b.success

/-- CheckedBy field of a check response, when it is a JSON 200. -/
def respCheckedBy : CheckResp → Option String
  | .badRequest _ => none
  | .ok b => some b.checkedBy

/-- ErrorCode field of a check response, when it is a JSON 200. -/
def respErrorCode : CheckResp → Option JSVal
  | .badRequest _ => none
  | .ok b => some b.errorCode

/-- The JSON body returned on the manual-settle early return
(server.js lines 307-325). -/
def manualBody (env : ServerEnv) (payment : Payment) : CheckBody :=
  { success := true
    status := "completed"
    data := .manual (jsOr payment.transactionHash .null)
      (jsOr payment.fromAccount (.str "demo@manual")) payment.amount payment.currency
    deeplinkUrl := jsOr payment.deeplinkUrl .null
    message := .str "Payment marked as completed manually (demo mode)"
    errorCode := .null
    checkedBy := "manual"
    provider := none
    warning := .str "Demo manual settle override is enabled."
    manualSettleEnabled := isDemoManualSettleEnabled env }

/-- Store update of the check handler (server.js lines 360-376), given the
payment looked up earlier, the (possibly fallback-replaced) result and the
resolved status. -/
def applyCheckUpdate (env : ServerEnv) (m : PMap) (md5 : String)
    (payment : Option Payment) (result : ApiResult) (status : String)
    (checkedBy : String) : PMap :=
  match payment with
  | some p =>
    if status = "completed" then
      mapSet m md5
        { p with
          status := "completed"
          completedAt := .str env.now
          transactionHash := jsOr (match result.data with
            | some d => d.hash
            | none => .undef) .null
          fromAccount := jsOr (match result.data with
            | some d => d.fromAccountId
            | none => .undef) .null }
    else if status = "failed" then
      mapSet m md5 { p with status := "failed" }
    else if status = "error" then
      mapSet m md5
        { p with
          lastProviderError := some
            { checkedAt := env.now
              checkedBy := checkedBy
              responseCode := coalesceNull result.responseCode
              errorCode := coalesceNull result.errorCode
              responseMessage := coalesceNull result.responseMessage } }
    else m
  | none => m

/-- Tail of the check handler after the result/status/checkedBy have been
settled: store update, warnings and JSON response (server.js lines 360-408). -/
def finishCheck (env : ServerEnv) (m : PMap) (md5 : String)
    (payment : Option Payment) (result : ApiResult) (status : String)
    (checkedBy : String) (fallbackProvider : Option FallbackBlock)
    (calls : List BakongCall) : CheckOutcome :=
  let m' := applyCheckUpdate env m md5 payment result status checkedBy
  let warning0 : JSVal := .null
  let warning1 :=
    if serverUsingDev env then
      appendWarning warning0 "Using Bakong DEV API base URL. Live payments may remain pending."
    else warning0
  let warning2 :=
    if status = "error" then
      appendWarning warning1 "Provider status lookup failed. Please verify API base URL/token and retry."
    else warning1
  let body : CheckBody :=
    { success := status == "completed"
      status := status
      data := .fromProvider result.data
      deeplinkUrl := match payment with
        | some p => jsOr p.deeplinkUrl .null
        | none => .null
      message := buildStatusMessage status (some result)
      errorCode := result.errorCode
      checkedBy := checkedBy
      provider := some
        { checkedBy := checkedBy
          summary := getProviderSummary result
          fallback := fallbackProvider }
      warning := warning2
      manualSettleEnabled := isDemoManualSettleEnabled env }
  { response := .ok body, newPayments := m', calls := calls }

/-- Main path of the check handler (server.js lines 327-358): primary md5
lookup, conditional short-hash fallback, adoption of the fallback result when
it is conclusive. -/
def mainCheck (env : ServerEnv) (m : PMap) (md5 : String) (payment : Option Payment)
    (primary fallback : ApiResult) : CheckOutcome :=
  let status1 := resolvePaymentStatus (some primary)
  match payment with
  | some p =>
    if status1 = "pending" ∧ p.qrString ≠ "" ∧ optTruthy env.apiToken = true then
      let shortHash := generateShortHash env.crypto p.qrString
      let shStatus := resolvePaymentStatus (some fallback)
      let fb : FallbackBlock := { checkedBy := "short_hash", summary := getProviderSummary fallback }
      let calls := [.byMD5 md5, .byShortHash shortHash p.amount p.currency]
      if shStatus = "completed" ∨ shStatus = "failed" then
        finishCheck env m md5 payment fallback shStatus "short_hash" (some fb) calls
      else
        finishCheck env m md5 payment primary status1 "md5" (some fb) calls
    else finishCheck env m md5 payment primary status1 "md5" none [.byMD5 md5]
  | none => finishCheck env m md5 none primary status1 "md5" none [.byMD5 md5]

/-- Embedding of the `POST /api/payment/check` handler (server.js lines
295-416).  `primary` is the oracle for `checkTransactionByMD5`, `fallback`
for `checkTransactionByShortHash` (consulted only if that call happens). -/
def checkHandler (env : ServerEnv) (m : PMap) (md5 : String)
    (primary fallback : ApiResult) : CheckOutcome :=
  if md5 = "" then
    { response := .badRequest "MD5 hash is required", newPayments := m, calls := [] }
  else
    match mapGet m md5 with
    | some payment =>
      if jsTruthy payment.manualSettledAt then
        { response := .ok (manualBody env payment), newPayments := m, calls := [] }
      else mainCheck env m md5 (some payment) primary fallback
    | none => mainCheck env m md5 none primary fallback

/-- Response of the mark-paid handler. -/
inductive MarkPaidResp where
  | forbidden (error : String)
  | badRequest (error : String)
  | notFound (error : String)
  | ok (status : String) (message : String) (md5 : String) (payment : Payment)
deriving DecidableEq, Repr

/-- Embedding of the `POST /api/payment/mark-paid` handler (server.js lines
421-470). -/
def markPaidHandler (env : ServerEnv) (m : PMap) (md5 : String)
    (fromAccountId transactionHash : JSVal) : MarkPaidResp × PMap :=
  if isDemoManualSettleEnabled env = false then
    (.forbidden "Manual settle mode is disabled", m)
  else if md5 = "" then
    (.badRequest "MD5 hash is required", m)
  else
    match mapGet m md5 with
    | none => (.notFound "Payment not found", m)
    | some p =>
      let p' : Payment :=
        { p with
          status := "completed"
          completedAt := .str env.now
          manualSettledAt := .str env.now
          fromAccount := .str ((normalizeOptionalText fromAccountId).getD "demo@manual")
          transactionHash := .str ((normalizeOptionalText transactionHash).getD
            ("manual-" ++ toString env.nowMs)) }
      (.ok "completed" "Payment marked as completed manually (demo mode)" md5 p',
        mapSet m md5 p')

/-- Embedding of the background deeplink completion in the generate handler
(server.js lines 243-261): it re-fetches the record and stores it back under
the same key with only `deeplinkUrl` changed. -/
def backgroundDeeplinkUpdate (m : PMap) (md5 : String) (deeplinkRes : ApiResult) : PMap :=
  let shortLink := jsOr (match deeplinkRes.data with
    | some d => d.shortLink
    | none => .undef) .null
  if jsTruthy shortLink = false then m
  else
    match mapGet m md5 with
    | none => m
    | some p => mapSet m md5 { p with deeplinkUrl := shortLink }

/-- Request body of `POST /api/khqr/generate`. -/
structure GenerateBody where
  amount : JSVal := .undef
  currency : JSVal := .undef
  billNumber : JSVal := .undef
  description : JSVal := .undef
  storeLabel : JSVal := .undef
deriving DecidableEq, Repr

/-- Model of `Number.parseFloat` on the modelled values: numbers pass
through; strings parse when they are decimal integer literals (a leading
parse; the integer subset again suffices for the properties proved here);
other values are NaN. -/
def jsParseFloat : JSVal → Option Rat
  | .num q => some q
  | .str s => strToNumber s
  | _ => none

/-- Response of the generate handler (`qrCodeImage` is the data URL produced
by the external `qrcode` package, abstracted as an oracle input). -/
inductive GenerateResp where
  | badRequest (error : String)
  | serverError (error : String)
  | ok (billNumber qrString qrCodeImage md5 : String) (deeplinkUrl : JSVal)
      (amount : Rat) (currency : String) (manualSettleEnabled : Bool) (warning : JSVal)
deriving DecidableEq, Repr

/-- Embedding of the `POST /api/khqr/generate` handler (server.js lines
128-290), success paths.  `libRes` is the external KHQR library outcome,
`qrImage` the rendered QR data URL and `deeplinkRes` the awaited deeplink
result (consulted in sync mode only; a thrown external error would abort
before the store and leave the map unchanged). -/
def generateHandler (env : ServerEnv) (m : PMap) (body : GenerateBody)
    (libRes : LibResult) (qrImage : String) (deeplinkRes : ApiResult) :
    GenerateResp × PMap :=
  match jsParseFloat body.amount with
  | none => (.badRequest "Amount is required and must be greater than 0", m)
  | some parsedAmount =>
    if parsedAmount ≤ 0 then (.badRequest "Amount is required and must be greater than 0", m)
    else
      let resolvedCurrency := ucase (jsToString body.currency)
      let resolvedCurrency := if body.currency = .undef then "USD" else resolvedCurrency
      if ¬ (resolvedCurrency = "USD" ∨ resolvedCurrency = "KHR") then
        (.badRequest "Currency must be either USD or KHR", m)
      else if ¬ (optTruthy env.accountId = true ∧ optTruthy env.merchantName = true) then
        (.serverError "Server is missing required Bakong configuration", m)
      else
        let finalBillNumber := (normalizeOptionalText body.billNumber).getD
          ("INV-" ++ toString env.nowMs)
        let purposeOfTransaction := normalizeOptionalText body.description
        let resolvedStoreLabel := (normalizeOptionalText body.storeLabel).getD
          (env.merchantName.getD "")
        let gen := generateIndividualQR env.crypto env.nowMs
          { accountId := match env.accountId with
              | some s => .str s
              | none => .undef
            merchantName := match env.merchantName with
              | some s => .str s
              | none => .undef
            merchantCity := .str (jsOrDefaultStr env.merchantCity "Phnom Penh")
            amount := parsedAmount
            currency := .str resolvedCurrency
            billNumber := .str finalBillNumber
            mobileNumber := match env.merchantPhone with
              | some s => .str s
              | none => .undef
            storeLabel := .str resolvedStoreLabel
            purposeOfTransaction := match purposeOfTransaction with
              | some s => .str s
              | none => .null }
          libRes
        match gen.result with
        | .err e => (.serverError e, m)
        | .ok qr md5v =>
          let warning0 : JSVal := .null
          let dlData := jsOr (match deeplinkRes.data with
            | some d => d.shortLink
            | none => .undef) .null
          let deeplinkUrl : JSVal :=
            if optTruthy env.apiToken then
              if shouldGenerateDeeplinkInBackground env then .null else dlData
            else .null
          let warning1 : JSVal :=
            if optTruthy env.apiToken then
              if shouldGenerateDeeplinkInBackground env then
                appendWarning warning0
                  "Deeplink is being prepared in background. QR scan payment works immediately."
              else
                if jsTruthy dlData = false ∧ deeplinkRes.responseCode ≠ .num 0 then
                  jsOr deeplinkRes.responseMessage (.str "Unable to generate deeplink")
                else warning0
            else .str "BAKONG_API_TOKEN is not configured, deeplink is unavailable"
          let warning2 :=
            if serverUsingDev env then
              appendWarning warning1
                "Using Bakong DEV API base URL. Live payments may not reflect in status checks."
            else warning1
          let paymentInfo : Payment :=
            { billNumber := finalBillNumber
              amount := parsedAmount
              currency := resolvedCurrency
              qrString := qr
              md5 := md5v
              description := purposeOfTransaction
              status := "pending"
              createdAt := env.now
              deeplinkUrl := deeplinkUrl }
          (.ok finalBillNumber qr qrImage md5v deeplinkUrl parsedAmount resolvedCurrency
            (isDemoManualSettleEnabled env) warning2,
           mapSet m md5v paymentInfo)

/-- One server operation that can touch the payments store, with its oracle
inputs. -/
inductive ServerOp where
  | generate (body : GenerateBody) (libRes : LibResult) (qrImage : String)
      (deeplinkRes : ApiResult)
  | check (md5 : String) (primary fallback : ApiResult)
  | markPaid (md5 : String) (fromAccountId transactionHash : JSVal)
  | deeplinkUpdate (md5 : String) (deeplinkRes : ApiResult)

/-- Effect of a server operation on the payments store. -/
def applyOp (env : ServerEnv) (m : PMap) : ServerOp → PMap
  | .generate body libRes qrImage deeplinkRes =>
    (generateHandler env m body libRes qrImage deeplinkRes).2
  | .check md5 primary fallback => (checkHandler env m md5 primary fallback).newPayments
  | .markPaid md5 fa th => (markPaidHandler env m md5 fa th).2
  | .deeplinkUpdate md5 deeplinkRes => backgroundDeeplinkUpdate m md5 deeplinkRes

/-- Every stored entry is keyed by the MD5 content hash of its own QR string. -/
def KeyInv (env : ServerEnv) (m : PMap) : Prop :=
  ∀ kv ∈ m, kv.1 = generateMD5 env.crypto kv.2.qrString

/-!
Concrete sample data used by the witness and counterexample theorems.
-/

/-- Sample crypto oracle (constant digests suffice for witnesses). -/
def sampleCrypto : CryptoEnv :=
  { md5hex := fun _ => "k", sha256hex := fun _ => "0123456789abcdef" }

/-- Sample server environment. -/
def sampleEnv : ServerEnv :=
  { crypto := sampleCrypto
    apiToken := some "tok"
    accountId := some "acct@bank"
    merchantName := some "Shop"
    merchantCity := none
    merchantPhone := none
    demoManualSettle := none
    deeplinkMode := none
    apiBaseUrl := none
    now := "2026-01-01T00:00:00.000Z"
    nowMs := 1000 }

/-- Sample stored record in status `failed`. -/
def sampleFailedPayment : Payment :=
  { billNumber := "B1", amount := 5, currency := "USD", qrString := "QR", md5 := "k"
    description := none, status := "failed", createdAt := "t0", deeplinkUrl := .null }

/-- Sample stored record in status `pending`. -/
def samplePendingPayment : Payment := { sampleFailedPayment with status := "pending" }

/-- Sample record settled manually. -/
def sampleManualPayment : Payment :=
  { sampleFailedPayment with
    status := "completed", manualSettledAt := .str "2026-01-01T00:00:00.000Z" }

/-- The record the check handler stores for `sampleFailedPayment` when the
provider reports settlement. -/
def sampleCompletedRecord : Payment :=
  { sampleFailedPayment with
    status := "completed"
    completedAt := .str sampleEnv.now
    transactionHash := .str "h"
    fromAccount := .str "c@b" }

/-- Sample provider result reporting a settled transaction. -/
def sampleDoneRes : ApiResult :=
  { responseCode := .num 0, data := some { hash := .str "h", fromAccountId := .str "c@b" } }

/-- Sample provider result with every field absent. -/
def sampleEmptyRes : ApiResult := {}

/-- Sample provider result classified as pending. -/
def samplePendingRes : ApiResult := { responseCode := .num 5, errorCode := .num 1 }

/-- Sample provider result classified as a recoverable error. -/
def sampleTimeoutRes : ApiResult := timeoutResult 18000 false

/-- Sample API client configuration with a token. -/
def sampleApiEnv : ApiEnv := { apiToken := some "tok", baseUrl := "https://api-bakong.nbc.org.kh" }

/-- Sample API client configuration without a token. -/
def sampleApiEnvNoToken : ApiEnv := { apiToken := none, baseUrl := "https://api-bakong.nbc.org.kh" }

/-- Sample fetch oracle: every attempt aborts on timeout. -/
def sampleOracle : Bool → FetchOutcome := fun _ => .abortError

/-- Sample per-attempt fetch oracles: every attempt aborts on timeout. -/
def sampleOracles : Nat → Bool → FetchOutcome := fun _ _ => .abortError

/-- Sample QR-generation arguments carrying lowercase `khr`. -/
def sampleKhrArgs : GenArgs :=
  { accountId := .str "acct@bank", merchantName := .str "Shop"
    currency := .str "khr", amount := 5 }

/-- Sample successful library outcome. -/
def sampleLibOk : LibResult := { statusCode := 0, qr := "QR", message := "" }


section JsValLemmas

theorem jsTrim_empty : jsTrim "" = "" := rfl

/-- Membership transfers from a pattern to a list that starts with it. -/
theorem mem_of_startsWithChars {c : Char} :
    ∀ {hay pat : List Char}, startsWithChars hay pat = true → c ∈ pat → c ∈ hay := by
  intro hay pat
  induction pat generalizing hay with
  | nil => intro _ hc; exact absurd hc (List.not_mem_nil c)
  | cons b bs ih =>
    intro hsw hc
    match hay with
    | [] => simp [startsWithChars] at hsw
    | a :: as =>
      simp only [startsWithChars, Bool.and_eq_true, beq_iff_eq] at hsw
      rcases List.mem_cons.mp hc with h | h
      · have hca : c = a := h.trans hsw.1.symm
        subst hca
        exact List.mem_cons_self c as
      · exact List.mem_cons_of_mem a (ih hsw.2 h)

/-- Membership transfers from a pattern to any list containing it. -/
theorem mem_of_containsChars {c : Char} :
    ∀ {hay pat : List Char}, containsChars hay pat = true → c ∈ pat → c ∈ hay := by
  intro hay pat
  induction hay with
  | nil =>
    intro hcc hc
    simp only [containsChars, List.isEmpty_iff] at hcc
    subst hcc
    exact absurd hc (List.not_mem_nil c)
  | cons a as ih =>
    intro hcc hc
    simp only [containsChars, Bool.or_eq_true] at hcc
    rcases hcc with h | h
    · exact mem_of_startsWithChars h hc
    · exact List.mem_cons_of_mem a (ih h hc)

/-- Whitespace characters are fixed by `Char.toLower`. -/
theorem toLower_of_whitespace {d : Char} (h : d.isWhitespace = true) :
    d.toLower = d := by
  simp only [Char.isWhitespace, Bool.or_eq_true, decide_eq_true_eq] at h
  rcases h with ((h | h) | h) | h <;> subst h <;> decide

/-- A list containing a non-whitespace character does not trim to empty. -/
theorem trimChars_ne_nil {d : Char} {l : List Char}
    (hm : d ∈ l) (hw : d.isWhitespace = false) : trimChars l ≠ [] := by
  intro h
  unfold trimChars at h
  rw [List.reverse_eq_nil_iff] at h
  rw [List.dropWhile_eq_nil_iff] at h
  have hl := List.takeWhile_append_dropWhile (p := Char.isWhitespace) (l := l)
  rw [← hl] at hm
  rcases List.mem_append.mp hm with h1 | h1
  · have := List.mem_takeWhile_imp h1
    rw [hw] at this
    exact Bool.false_ne_true this
  · have := h d (List.mem_reverse.mpr h1)
    rw [hw] at this
    exact Bool.false_ne_true this

/-- When the pending-like pattern matches, the message does not trim to empty:
the explicit `!message.trim()` guard in `isLikelyPendingMessage` is redundant. -/
theorem pendingRegexTest_imp_trim_ne (s : String) (h : pendingRegexTest s = true) :
    jsTrim s ≠ "" := by
  intro hemp
  have hl : trimChars s.toList = [] := by
    have := congrArg String.data hemp
    simpa [jsTrim, String.data] using this
  unfold pendingRegexTest at h
  rw [List.any_eq_true] at h
  obtain ⟨p, hp, hcc⟩ := h
  -- pick a non-whitespace witness character from each alternative
  have key : ∀ c : Char, c ∈ p.toList → c.isWhitespace = false →
      trimChars s.toList ≠ [] := by
    intro c hcp hcw hnil
    have hcl : c ∈ s.toList.map Char.toLower := mem_of_containsChars hcc hcp
    obtain ⟨d, hd, hdc⟩ := List.mem_map.mp hcl
    have hdw : d.isWhitespace = false := by
      cases hdwc : d.isWhitespace with
      | false => rfl
      | true =>
        have := toLower_of_whitespace hdwc
        rw [this] at hdc
        subst hdc
        rw [hdwc] at hcw
        exact absurd hcw (by simp)
    exact trimChars_ne_nil hd hdw hnil
  simp only [pendingPats, List.mem_cons, List.not_mem_nil, or_false] at hp
  rcases hp with h | h | h | h | h <;> subst h
  · exact key 'n' (by decide) (by decide) hl
  · exact key 'n' (by decide) (by decide) hl
  · exact key 'p' (by decide) (by decide) hl
  · exact key 'p' (by decide) (by decide) hl
  · exact key 'w' (by decide) (by decide) hl

end JsValLemmas

section ResolveLemmas

/-- The code's pending-message test agrees with the claim's pattern notion on
the normalised message. -/
theorem isLikelyPendingMessage_eq_spec (v : JSVal) :
    isLikelyPendingMessage (.str (normMessage v)) = specPendingMessage v := by
  cases v with
  | str s =>
    simp only [normMessage, isLikelyPendingMessage, specPendingMessage]
    by_cases h : jsTrim s = ""
    · rw [if_pos h]
      cases hp : pendingRegexTest s with
      | false => rfl
      | true => exact absurd h (pendingRegexTest_imp_trim_ne s hp)
    · rw [if_neg h]
  | null => rfl
  | undef => rfl
  | num q => rfl
  | bool b => rfl

/-- The classification always lands in the four-state enum. -/
theorem resolvePaymentStatus_mem (r : Option ApiResult) :
    resolvePaymentStatus r = "pending" ∨ resolvePaymentStatus r = "completed" ∨
    resolvePaymentStatus r = "failed" ∨ resolvePaymentStatus r = "error" := by
  cases r with
  | none => simp [resolvePaymentStatus]
  | some o =>
    simp only [resolvePaymentStatus]
    split_ifs <;> simp

/-- The code's classification coincides with the claim's classification. -/
theorem resolvePaymentStatus_eq_spec (r : Option ApiResult) :
    resolvePaymentStatus r = resolvePaymentStatusSpec r := by
  cases r with
  | none => rfl
  | some o =>
    simp only [resolvePaymentStatus, resolvePaymentStatusSpec,
      isLikelyPendingMessage_eq_spec]
    split_ifs <;> rfl

end ResolveLemmas

section PMapLemmas

/-- A successful lookup means the pair is a member of the list. -/
theorem mapGet_some_mem {m : PMap} {k : String} {p : Payment}
    (h : mapGet m k = some p) : (k, p) ∈ m := by
  unfold mapGet at h
  cases hf : List.find? (fun kv => kv.1 == k) m with
  | none =>
    rw [hf] at h
    exact absurd h (by simp [Option.map_none'])
  | some kv =>
    rw [hf] at h
    simp only [Option.map_some', Option.some_inj] at h
    have hmem := List.mem_of_find?_eq_some hf
    have hkey := List.find?_some hf
    simp only [beq_iff_eq] at hkey
    have hkv : kv = (k, p) := by
      cases kv with
      | mk a b => simp only at hkey h; rw [hkey, h]
    rw [← hkv]; exact hmem

/-- Replacing the entry at key `k` does not affect lookups of other keys. -/
theorem find?_map_replace (k k' : String) (v : Payment) (hne : k' ≠ k) :
    ∀ m : List (String × Payment),
      List.find? (fun kv => kv.1 == k')
        (List.map (fun kv => if kv.1 == k then (k, v) else kv) m)
      = List.find? (fun kv => kv.1 == k') m := by
  intro m
  induction m with
  | nil => rfl
  | cons a as ih =>
    by_cases ha : a.1 = k
    · have h1 : (a.1 == k) = true := beq_iff_eq.mpr ha
      have h2 : ((k, v).1 == k') = false := beq_eq_false_iff_ne.mpr (Ne.symm hne)
      have h3 : (a.1 == k') = false := beq_eq_false_iff_ne.mpr (by rw [ha]; exact Ne.symm hne)
      simp only [List.map_cons, h1, if_pos, List.find?_cons, h2, h3, cond_false]
      exact ih
    · have h1 : (a.1 == k) = false := beq_eq_false_iff_ne.mpr ha
      simp only [List.map_cons, h1, Bool.false_eq_true, if_false, List.find?_cons]
      cases hak : (a.1 == k') with
      | true => rfl
      | false => simpa [hak] using ih

/-- Replacing the entry at key `k` makes lookups of `k` return the new value,
provided an entry with key `k` was present. -/
theorem find?_map_replace_self (k : String) (v : Payment) :
    ∀ m : List (String × Payment),
      (List.find? (fun kv => kv.1 == k) m).isSome = true →
      List.find? (fun kv => kv.1 == k)
        (List.map (fun kv => if kv.1 == k then (k, v) else kv) m)
      = some (k, v) := by
  intro m
  induction m with
  | nil => intro h; simp [List.find?] at h
  | cons a as ih =>
    intro h
    by_cases ha : a.1 = k
    · simp [List.map_cons, List.find?_cons, ha]
    · have h1 : (a.1 == k) = false := beq_eq_false_iff_ne.mpr ha
      rw [List.find?_cons] at h
      simp only [h1, cond_false] at h
      simp only [List.map_cons, h1, Bool.false_eq_true, if_false, List.find?_cons, h1, cond_false]
      exact ih h

/-- Appending a fresh entry leaves lookups of other keys unchanged. -/
theorem find?_append_singleton_ne (k k' : String) (v : Payment) (hne : k' ≠ k) :
    ∀ m : List (String × Payment),
      List.find? (fun kv => kv.1 == k') (m ++ [(k, v)])
      = List.find? (fun kv => kv.1 == k') m := by
  intro m
  induction m with
  | nil =>
    have h2 : ((k, v).1 == k') = false := beq_eq_false_iff_ne.mpr (Ne.symm hne)
    simp [List.find?, h2]
  | cons a as ih =>
    rw [List.cons_append, List.find?_cons, List.find?_cons]
    cases hak : (a.1 == k') with
    | true => rfl
    | false => simpa [hak] using ih

/-- Appending a fresh entry makes its key findable when it was absent. -/
theorem find?_append_singleton_self (k : String) (v : Payment) :
    ∀ m : List (String × Payment),
      List.find? (fun kv => kv.1 == k) m = none →
      List.find? (fun kv => kv.1 == k) (m ++ [(k, v)]) = some (k, v) := by
  intro m
  induction m with
  | nil => intro _; simp [List.find?]
  | cons a as ih =>
    intro h
    rw [List.find?_cons] at h
    cases hak : (a.1 == k) with
    | true => rw [hak] at h; simp at h
    | false =>
      rw [hak] at h
      simp only [cond_false] at h
      rw [List.cons_append, List.find?_cons]
      simp only [hak, cond_false]
      exact ih h

/-- Lookup after setting the same key. -/
theorem mapGet_mapSet_self (m : PMap) (k : String) (v : Payment) :
    mapGet (mapSet m k v) k = some v := by
  unfold mapGet mapSet
  by_cases hf : (List.find? (fun kv => kv.1 == k) m).isSome
  · rw [if_pos hf, find?_map_replace_self k v m hf]
    rfl
  · rw [if_neg hf]
    rw [Option.not_isSome_iff_eq_none] at hf
    rw [find?_append_singleton_self k v m hf]
    rfl

/-- Lookup after setting a different key. -/
theorem mapGet_mapSet_ne (m : PMap) (k k' : String) (v : Payment) (hne : k' ≠ k) :
    mapGet (mapSet m k v) k' = mapGet m k' := by
  unfold mapGet mapSet
  by_cases hf : (List.find? (fun kv => kv.1 == k) m).isSome
  · rw [if_pos hf, find?_map_replace k k' v hne m]
  · rw [if_neg hf, find?_append_singleton_ne k k' v hne m]

/-- Every member of `mapSet m k v` is the new entry or an old member. -/
theorem mem_mapSet {m : PMap} {k : String} {v : Payment} {kv : String × Payment}
    (h : kv ∈ mapSet m k v) : kv = (k, v) ∨ kv ∈ m := by
  unfold mapSet at h
  by_cases hf : (List.find? (fun kv => kv.1 == k) m).isSome
  · rw [if_pos hf] at h
    obtain ⟨kv', hkv', hrepl⟩ := List.mem_map.mp h
    by_cases hk : kv'.1 = k
    · left
      rw [← hrepl]
      simp [beq_iff_eq.mpr hk]
    · right
      rw [← hrepl]
      simpa [beq_eq_false_iff_ne.mpr hk] using hkv'
  · rw [if_neg hf] at h
    rcases List.mem_append.mp h with h1 | h1
    · right; exact h1
    · left; simpa using h1

end PMapLemmas

section ApiLemmas

theorem post_missing_token (env : ApiEnv) (endpoint : String) (payload : Payload)
    (opts : PostOptions) (oracle : Bool → FetchOutcome)
    (h : optTruthy env.apiToken = false) :
    post env endpoint payload true opts oracle = (missingTokenResult, []) := by
  unfold post
  rw [if_pos ⟨rfl, h⟩]

theorem post_forced (env : ApiEnv) (endpoint : String) (payload : Payload)
    (requiresAuth : Bool) (opts : PostOptions) (oracle : Bool → FetchOutcome)
    (htok : ¬ (requiresAuth = true ∧ optTruthy env.apiToken = false))
    (hforce : opts.forceIpv4 = true) :
    post env endpoint payload requiresAuth opts oracle =
      (settleOutcome (opts.timeoutMs.getD env.timeoutMs) opts.ipv4FallbackTried (oracle true),
       [{ endpoint := endpoint, payload := payload, authHeader := requiresAuth,
          ipv4Agent := true }]) := by
  unfold post
  rw [if_neg htok, hforce]
  rw [dif_neg (by simp)]

theorem post_fallback (env : ApiEnv) (endpoint : String) (payload : Payload)
    (requiresAuth : Bool) (opts : PostOptions) (oracle : Bool → FetchOutcome)
    (htok : ¬ (requiresAuth = true ∧ optTruthy env.apiToken = false))
    (hfb : env.enableIpv4Fallback = true) (hforce : opts.forceIpv4 = false)
    (hworthy : fallbackWorthy (oracle false) = true) :
    post env endpoint payload requiresAuth opts oracle =
      (settleOutcome (opts.timeoutMs.getD env.timeoutMs) true (oracle true),
       [{ endpoint := endpoint, payload := payload, authHeader := requiresAuth,
          ipv4Agent := false },
        { endpoint := endpoint, payload := payload, authHeader := requiresAuth,
          ipv4Agent := true }]) := by
  unfold post
  rw [if_neg htok, hforce]
  rw [dif_pos ⟨⟨hfb, rfl⟩, hworthy⟩]
  rw [post_forced env endpoint payload requiresAuth _ oracle htok (by simp)]

theorem post_forced_trace_len (env : ApiEnv) (endpoint : String) (payload : Payload)
    (requiresAuth : Bool) (opts : PostOptions) (oracle : Bool → FetchOutcome)
    (hforce : opts.forceIpv4 = true) :
    (post env endpoint payload requiresAuth opts oracle).2.length ≤ 1 := by
  unfold post
  by_cases htok : requiresAuth = true ∧ optTruthy env.apiToken = false
  · rw [if_pos htok]; simp
  · rw [if_neg htok, hforce]
    rw [dif_neg (by simp)]
    simp

theorem post_trace_len (env : ApiEnv) (endpoint : String) (payload : Payload)
    (requiresAuth : Bool) (opts : PostOptions) (oracle : Bool → FetchOutcome) :
    (post env endpoint payload requiresAuth opts oracle).2.length ≤ 2 := by
  unfold post
  by_cases htok : requiresAuth = true ∧ optTruthy env.apiToken = false
  · rw [if_pos htok]; simp
  · rw [if_neg htok]
    by_cases hcond : (env.enableIpv4Fallback = true ∧ opts.forceIpv4 = false) ∧
        fallbackWorthy (oracle opts.forceIpv4) = true
    · rw [dif_pos hcond]
      have := post_forced_trace_len env endpoint payload requiresAuth
        { opts with forceIpv4 := true, ipv4FallbackTried := true } oracle (by simp)
      simp only [List.length_cons]
      omega
    · rw [dif_neg hcond]
      simp

end ApiLemmas

section RetryLemmas

theorem postWithRetryLoop_spec (env : ApiEnv) (endpoint : String) (payload : Payload)
    (requiresAuth : Bool) (opts : PostOptions) (oracles : Nat → Bool → FetchOutcome) :
    ∀ (n i : Nat) (last : ApiResult) (acc : List (List FetchCall)),
      i = acc.length → 1 ≤ i →
      last = (post env endpoint payload requiresAuth opts (oracles (i - 1))).1 →
      (∀ j, j + 1 < i →
        isRetryable (post env endpoint payload requiresAuth opts (oracles j)).1 = true) →
      isRetryable last = true →
      let out := postWithRetryLoop env endpoint payload requiresAuth opts oracles n i last acc
      acc.length ≤ out.2.length ∧ out.2.length ≤ acc.length + n ∧
      (∀ j, j + 1 < out.2.length →
        isRetryable (post env endpoint payload requiresAuth opts (oracles j)).1 = true) ∧
      out.1 = (post env endpoint payload requiresAuth opts (oracles (out.2.length - 1))).1 ∧
      (isRetryable out.1 = true → out.2.length = acc.length + n) := by
  intro n
  induction n with
  | zero =>
    intro i last acc hi h1 hlast hprev hret
    simp only [postWithRetryLoop]
    refine ⟨le_refl _, by omega, ?_, ?_, ?_⟩
    · intro j hj; exact hprev j (by omega)
    · rw [hlast, hi]
    · intro _; omega
  | succ n ih =>
    intro i last acc hi h1 hlast hprev hret
    simp only [postWithRetryLoop]
    by_cases hr : isRetryable (post env endpoint payload requiresAuth opts (oracles i)).1 = true
    · rw [if_pos hr]
      have hnext := ih (i + 1)
        (post env endpoint payload requiresAuth opts (oracles i)).1
        (acc ++ [(post env endpoint payload requiresAuth opts (oracles i)).2])
        (by simp [hi]) (by omega) (by simp) ?_ hr
      · obtain ⟨ha, hb, hc, hd, he⟩ := hnext
        simp only [List.length_append, List.length_singleton] at ha hb he
        refine ⟨by omega, by omega, hc, hd, ?_⟩
        intro hout
        have := he hout
        omega
      · intro j hj
        by_cases hji : j + 1 < i
        · exact hprev j hji
        · have hj' : j = i - 1 := by omega
          subst hj'
          rw [← hlast]; exact hret
    · rw [if_neg hr]
      refine ⟨by simp, by simp only [List.length_append, List.length_singleton]; omega, ?_, ?_, ?_⟩
      · intro j hj
        simp only [List.length_append, List.length_singleton] at hj
        by_cases hji : j + 1 < i
        · exact hprev j hji
        · have hj' : j = i - 1 := by omega
          subst hj'
          rw [← hlast]; exact hret
      · simp only [List.length_append, List.length_singleton]
        have : acc.length + 1 - 1 = i := by omega
        rw [this]
      · intro hco
        simp only at hco
        exact absurd hco hr

end RetryLemmas

theorem containsChars_append_right (l1 l2 pat : List Char)
    (h : containsChars l2 pat = true) : containsChars (l1 ++ l2) pat = true := by
  induction l1 with
  | nil => simpa using h
  | cons a as ih =>
    rw [List.cons_append]
    unfold containsChars
    rw [Bool.or_eq_true]
    right
    exact ih

theorem timeout_msg_mentions_fallback (t : Int) :
    ∃ msg, (timeoutResult t true).responseMessage = .str msg ∧
      strContains msg "IPv4 fallback" = true := by
  refine ⟨"Bakong API request timed out after " ++ toString t ++ "ms (including IPv4 fallback)",
    rfl, ?_⟩
  unfold strContains
  simp only [String.toList, String.data_append]
  exact containsChars_append_right _ _ _ (by decide)

theorem postWithRetry_missing_token (env : ApiEnv) (endpoint : String) (payload : Payload)
    (opts : PostOptions) (oracles : Nat → Bool → FetchOutcome)
    (h : optTruthy env.apiToken = false) :
    postWithRetry env endpoint payload true opts oracles = (missingTokenResult, [[]]) := by
  unfold postWithRetry
  rw [post_missing_token env endpoint payload opts (oracles 0) h]
  rw [if_pos (Or.inl (by decide))]

section ServerLemmas

theorem finishCheck_respStatus (env : ServerEnv) (m : PMap) (md5 : String)
    (payment : Option Payment) (result : ApiResult) (status checkedBy : String)
    (fb : Option FallbackBlock) (calls : List BakongCall) :
    respStatus (finishCheck env m md5 payment result status checkedBy fb calls).response =
      some status := rfl

theorem finishCheck_respCheckedBy (env : ServerEnv) (m : PMap) (md5 : String)
    (payment : Option Payment) (result : ApiResult) (status checkedBy : String)
    (fb : Option FallbackBlock) (calls : List BakongCall) :
    respCheckedBy (finishCheck env m md5 payment result status checkedBy fb calls).response =
      some checkedBy := rfl

theorem finishCheck_respErrorCode (env : ServerEnv) (m : PMap) (md5 : String)
    (payment : Option Payment) (result : ApiResult) (status checkedBy : String)
    (fb : Option FallbackBlock) (calls : List BakongCall) :
    respErrorCode (finishCheck env m md5 payment result status checkedBy fb calls).response =
      some result.errorCode := rfl

theorem finishCheck_newPayments (env : ServerEnv) (m : PMap) (md5 : String)
    (payment : Option Payment) (result : ApiResult) (status checkedBy : String)
    (fb : Option FallbackBlock) (calls : List BakongCall) :
    (finishCheck env m md5 payment result status checkedBy fb calls).newPayments =
      applyCheckUpdate env m md5 payment result status checkedBy := rfl

theorem finishCheck_calls (env : ServerEnv) (m : PMap) (md5 : String)
    (payment : Option Payment) (result : ApiResult) (status checkedBy : String)
    (fb : Option FallbackBlock) (calls : List BakongCall) :
    (finishCheck env m md5 payment result status checkedBy fb calls).calls = calls := rfl

end ServerLemmas

section UpdateLemmas

theorem applyCheckUpdate_status_change (env : ServerEnv) (m : PMap) (md5 : String)
    (payment : Option Payment) (result : ApiResult) (status checkedBy : String)
    (k : String) (r r' : Payment)
    (hpay : payment = mapGet m md5)
    (hold : mapGet m k = some r)
    (hnew : mapGet (applyCheckUpdate env m md5 payment result status checkedBy) k = some r')
    (hne : r'.status ≠ r.status) :
    r'.status = "completed" ∨ r'.status = "failed" := by
  cases payment with
  | none =>
    unfold applyCheckUpdate at hnew
    exact absurd (congrArg Payment.status (Option.some.inj (hold.symm.trans hnew))).symm hne
  | some p =>
    unfold applyCheckUpdate at hnew
    simp only [] at hnew
    by_cases h1 : status = "completed"
    · rw [if_pos h1] at hnew
      by_cases hk : k = md5
      · subst hk
        rw [mapGet_mapSet_self] at hnew
        left
        rw [← Option.some.inj hnew]
      · rw [mapGet_mapSet_ne m md5 k _ hk] at hnew
        exact absurd (congrArg Payment.status (Option.some.inj (hold.symm.trans hnew))).symm hne
    · rw [if_neg h1] at hnew
      by_cases h2 : status = "failed"
      · rw [if_pos h2] at hnew
        by_cases hk : k = md5
        · subst hk
          rw [mapGet_mapSet_self] at hnew
          right
          rw [← Option.some.inj hnew]
        · rw [mapGet_mapSet_ne m md5 k _ hk] at hnew
          exact absurd (congrArg Payment.status (Option.some.inj (hold.symm.trans hnew))).symm hne
      · rw [if_neg h2] at hnew
        by_cases h3 : status = "error"
        · rw [if_pos h3] at hnew
          by_cases hk : k = md5
          · subst hk
            rw [mapGet_mapSet_self] at hnew
            have hrp : r = p := Option.some.inj (hold.symm.trans hpay.symm)
            have : r'.status = p.status := by rw [← Option.some.inj hnew]
            rw [hrp] at hne
            exact absurd this hne
          · rw [mapGet_mapSet_ne m md5 k _ hk] at hnew
            exact absurd (congrArg Payment.status (Option.some.inj (hold.symm.trans hnew))).symm hne
        · rw [if_neg h3] at hnew
          exact absurd (congrArg Payment.status (Option.some.inj (hold.symm.trans hnew))).symm hne

theorem checkHandler_newPayments_cases (env : ServerEnv) (m : PMap) (md5 : String)
    (primary fallback : ApiResult) :
    (checkHandler env m md5 primary fallback).newPayments = m ∨
    ∃ payment result status checkedBy,
      payment = mapGet m md5 ∧
      (checkHandler env m md5 primary fallback).newPayments =
        applyCheckUpdate env m md5 payment result status checkedBy := by
  unfold checkHandler
  by_cases hmd5 : md5 = ""
  · rw [if_pos hmd5]; left; rfl
  · rw [if_neg hmd5]
    cases hget : mapGet m md5 with
    | none =>
      unfold mainCheck
      simp only []
      right
      exact ⟨none, primary, _, "md5", rfl, finishCheck_newPayments env m md5 _ _ _ _ _ _⟩
    | some p =>
      simp only []
      by_cases hman : jsTruthy p.manualSettledAt = true
      · rw [if_pos hman]; left; rfl
      · rw [if_neg hman]
        unfold mainCheck
        simp only []
        by_cases hcond : resolvePaymentStatus (some primary) = "pending" ∧
            p.qrString ≠ "" ∧ optTruthy env.apiToken = true
        · rw [if_pos hcond]
          by_cases hadopt : resolvePaymentStatus (some fallback) = "completed" ∨
              resolvePaymentStatus (some fallback) = "failed"
          · rw [if_pos hadopt]
            right
            exact ⟨some p, fallback, _, "short_hash", rfl,
              finishCheck_newPayments env m md5 _ _ _ _ _ _⟩
          · rw [if_neg hadopt]
            right
            exact ⟨some p, primary, _, "md5", rfl,
              finishCheck_newPayments env m md5 _ _ _ _ _ _⟩
        · rw [if_neg hcond]
          right
          exact ⟨some p, primary, _, "md5", rfl,
            finishCheck_newPayments env m md5 _ _ _ _ _ _⟩

end UpdateLemmas

section KeyInvLemmas

theorem keyInv_mapSet (env : ServerEnv) (m : PMap) (k : String) (v : Payment)
    (hInv : KeyInv env m) (hk : k = generateMD5 env.crypto v.qrString) :
    KeyInv env (mapSet m k v) := by
  intro kv hkv
  rcases mem_mapSet hkv with heq | hmem
  · rw [heq]
    exact hk
  · exact hInv kv hmem

theorem keyInv_applyCheckUpdate (env : ServerEnv) (m : PMap) (md5 : String)
    (payment : Option Payment) (result : ApiResult) (status checkedBy : String)
    (hpay : payment = mapGet m md5) (hInv : KeyInv env m) :
    KeyInv env (applyCheckUpdate env m md5 payment result status checkedBy) := by
  cases payment with
  | none =>
    unfold applyCheckUpdate
    exact hInv
  | some p =>
    have hmem : (md5, p) ∈ m := mapGet_some_mem hpay.symm
    have hkey : md5 = generateMD5 env.crypto p.qrString := hInv (md5, p) hmem
    unfold applyCheckUpdate
    simp only []
    by_cases h1 : status = "completed"
    · rw [if_pos h1]
      exact keyInv_mapSet env m md5 _ hInv hkey
    · rw [if_neg h1]
      by_cases h2 : status = "failed"
      · rw [if_pos h2]
        exact keyInv_mapSet env m md5 _ hInv hkey
      · rw [if_neg h2]
        by_cases h3 : status = "error"
        · rw [if_pos h3]
          exact keyInv_mapSet env m md5 _ hInv hkey
        · rw [if_neg h3]
          exact hInv

theorem generateIndividualQR_ok (crypto : CryptoEnv) (nowMs : Nat) (args : GenArgs)
    (libRes : LibResult) (qr md5v : String)
    (h : (generateIndividualQR crypto nowMs args libRes).result = .ok qr md5v) :
    md5v = generateMD5 crypto qr := by
  unfold generateIndividualQR at h
  cases hval : validateRequiredFields args.accountId args.merchantName with
  | some e =>
    rw [hval] at h
    exact GenQRResult.noConfusion h
  | none =>
    rw [hval] at h
    simp only [] at h
    by_cases hlib : libRes.statusCode = 0
    · rw [if_pos hlib] at h
      obtain ⟨hqr, hmd⟩ := GenQRResult.ok.inj h
      rw [← hmd, ← hqr]
    · rw [if_neg hlib] at h
      exact GenQRResult.noConfusion h

end KeyInvLemmas

theorem generateHandler_newPayments_cases (env : ServerEnv) (m : PMap) (body : GenerateBody)
    (libRes : LibResult) (qrImage : String) (deeplinkRes : ApiResult) :
    (generateHandler env m body libRes qrImage deeplinkRes).2 = m ∨
    ∃ (md5v : String) (rec : Payment),
      (generateHandler env m body libRes qrImage deeplinkRes).2 = mapSet m md5v rec ∧
      md5v = generateMD5 env.crypto rec.qrString := by
  unfold generateHandler
  split
  · exact Or.inl rfl
  · split
    · exact Or.inl rfl
    · simp only []
      by_cases hcu : body.currency = JSVal.undef
      · rw [if_pos hcu]
        split
        · exact Or.inl rfl
        · split
          · exact Or.inl rfl
          · split
            · exact Or.inl rfl
            · rename_i qr md5v hgen
              right
              exact ⟨md5v, _, rfl,
                generateIndividualQR_ok env.crypto env.nowMs _ libRes qr md5v hgen⟩
      · rw [if_neg hcu]
        split
        · exact Or.inl rfl
        · split
          · exact Or.inl rfl
          · split
            · exact Or.inl rfl
            · rename_i qr md5v hgen
              right
              exact ⟨md5v, _, rfl,
                generateIndividualQR_ok env.crypto env.nowMs _ libRes qr md5v hgen⟩

theorem resolveCurrency_ne (v : JSVal) (h : v ≠ .str "KHR") :
    resolveCurrency v = .usd := by
  unfold resolveCurrency
  rw [if_neg h]

/-!
The claim theorems.
-/


/-- C1 counterexample: the claim "a record whose status is already
'completed' or 'failed' never has its status changed again" is false.  On the
concrete ledger holding a record in status `failed`, a `POST
/api/payment/check` whose provider lookup reports settlement rewrites the
stored status to `completed` (a `failed → completed` transition). -/
theorem claim_C1_counterexample :
    sampleFailedPayment.status = "failed" ∧
    mapGet [("k", sampleFailedPayment)] "k" = some sampleFailedPayment ∧
    (mapGet (checkHandler sampleEnv [("k", sampleFailedPayment)] "k" sampleDoneRes
        sampleEmptyRes).newPayments "k").map Payment.status = some "completed" := by
  refine ⟨rfl, rfl, ?_⟩
  decide

/-- C1 (amended): whenever the POST /api/payment/check handler or the POST
/api/payment/mark-paid handler changes a stored record's status, the new
status is 'completed' or 'failed' (never 'error' — an error classification
leaves the status untouched); however, the change is applied regardless of
the record's current status, so records already 'completed' or 'failed' can
change again. -/
theorem claim_C1_amended_status_changes :
    (∀ (env : ServerEnv) (m : PMap) (md5 : String) (primary fallback : ApiResult)
        (k : String) (r r' : Payment),
      mapGet m k = some r →
      mapGet (checkHandler env m md5 primary fallback).newPayments k = some r' →
      r'.status ≠ r.status → r'.status = "completed" ∨ r'.status = "failed") ∧
    (∀ (env : ServerEnv) (m : PMap) (md5 : String) (fa th : JSVal)
        (k : String) (r r' : Payment),
      mapGet m k = some r →
      mapGet (markPaidHandler env m md5 fa th).2 k = some r' →
      r'.status ≠ r.status → r'.status = "completed" ∨ r'.status = "failed") := by
  constructor
  · intro env m md5 primary fallback k r r' hold hnew hne
    rcases checkHandler_newPayments_cases env m md5 primary fallback with
      hm | ⟨payment, result, status, checkedBy, hpay, hupd⟩
    · rw [hm] at hnew
      exact absurd (congrArg Payment.status (Option.some.inj (hold.symm.trans hnew))).symm hne
    · rw [hupd] at hnew
      exact applyCheckUpdate_status_change env m md5 payment result status checkedBy
        k r r' hpay hold hnew hne
  · intro env m md5 fa th k r r' hold hnew hne
    unfold markPaidHandler at hnew
    by_cases h1 : isDemoManualSettleEnabled env = false
    · rw [if_pos h1] at hnew
      exact absurd (congrArg Payment.status (Option.some.inj (hold.symm.trans hnew))).symm hne
    · rw [if_neg h1] at hnew
      by_cases h2 : md5 = ""
      · rw [if_pos h2] at hnew
        exact absurd (congrArg Payment.status (Option.some.inj (hold.symm.trans hnew))).symm hne
      · rw [if_neg h2] at hnew
        cases hget : mapGet m md5 with
        | none =>
          rw [hget] at hnew
          simp only [] at hnew
          exact absurd (congrArg Payment.status (Option.some.inj (hold.symm.trans hnew))).symm hne
        | some p =>
          rw [hget] at hnew
          simp only [] at hnew
          by_cases hk : k = md5
          · subst hk
            rw [mapGet_mapSet_self] at hnew
            left
            rw [← Option.some.inj hnew]
          · rw [mapGet_mapSet_ne m md5 k _ hk] at hnew
            exact absurd (congrArg Payment.status (Option.some.inj (hold.symm.trans hnew))).symm hne

/-- C2: for every provider result, `resolvePaymentStatus` returns exactly
one of the four statuses 'pending' / 'completed' / 'failed' / 'error', and it
coincides with the claim's classification (`resolvePaymentStatusSpec`):
'completed' iff responseCode is (numerically) 0; otherwise 'failed' if
errorCode is numerically 3; otherwise 'pending' if errorCode is numerically 1
or the responseMessage matches the pending-like pattern; otherwise 'error'
(covering non-object results, the internal error codes, responseCode -1 and
all other non-success responses). -/
theorem claim_C2_status_classification (r : Option ApiResult) :
    (resolvePaymentStatus r = "pending" ∨ resolvePaymentStatus r = "completed" ∨
     resolvePaymentStatus r = "failed" ∨ resolvePaymentStatus r = "error") ∧
    resolvePaymentStatus r = resolvePaymentStatusSpec r :=
  ⟨resolvePaymentStatus_mem r, resolvePaymentStatus_eq_spec r⟩

/-- C3: in the POST /api/payment/check handler the short-hash fallback
lookup is performed only when the primary md5 lookup classifies as
'pending', the payment exists in the ledger with a non-empty `qrString`, and
an API token is configured; the lookup is made with
`generateShortHash(qrString)` (the first 8 hex characters of the SHA-256 of
the stored QR string) plus the stored amount and currency; and the fallback
result replaces the primary result (its `checkedBy` becoming 'short_hash',
its `errorCode` and status reported) exactly when the fallback classifies as
'completed' or 'failed'. -/
theorem claim_C3_short_hash_fallback : ∀ (env : ServerEnv) (m : PMap) (md5 : String)
    (primary fallback : ApiResult) (h : String) (a : Rat) (cur : String),
    (BakongCall.byShortHash h a cur ∈ (checkHandler env m md5 primary fallback).calls →
      resolvePaymentStatus (some primary) = "pending" ∧
      ∃ p, mapGet m md5 = some p ∧ p.qrString ≠ "" ∧ optTruthy env.apiToken = true ∧
        h = generateShortHash env.crypto p.qrString ∧ a = p.amount ∧ cur = p.currency) ∧
    (BakongCall.byShortHash h a cur ∈ (checkHandler env m md5 primary fallback).calls →
      ((respCheckedBy (checkHandler env m md5 primary fallback).response = some "short_hash" ∧
        respErrorCode (checkHandler env m md5 primary fallback).response =
          some fallback.errorCode ∧
        respStatus (checkHandler env m md5 primary fallback).response =
          some (resolvePaymentStatus (some fallback))) ↔
       (resolvePaymentStatus (some fallback) = "completed" ∨
        resolvePaymentStatus (some fallback) = "failed"))) := by
  intro env m md5 primary fallback h a cur
  by_cases hmd5 : md5 = ""
  · unfold checkHandler
    rw [if_pos hmd5]
    constructor <;> intro hmem <;> simp at hmem
  · unfold checkHandler
    rw [if_neg hmd5]
    cases hget : mapGet m md5 with
    | none =>
      unfold mainCheck
      simp only []
      constructor <;> intro hmem <;> rw [finishCheck_calls] at hmem <;> simp at hmem
    | some p =>
      simp only []
      by_cases hman : jsTruthy p.manualSettledAt = true
      · rw [if_pos hman]
        constructor <;> intro hmem <;> simp at hmem
      · rw [if_neg hman]
        unfold mainCheck
        simp only []
        by_cases hcond : resolvePaymentStatus (some primary) = "pending" ∧
            p.qrString ≠ "" ∧ optTruthy env.apiToken = true
        · rw [if_pos hcond]
          by_cases hadopt : resolvePaymentStatus (some fallback) = "completed" ∨
              resolvePaymentStatus (some fallback) = "failed"
          · rw [if_pos hadopt]
            constructor
            · intro hmem
              rw [finishCheck_calls] at hmem
              simp only [List.mem_cons, List.not_mem_nil, or_false] at hmem
              rcases hmem with hbad | heq
              · exact absurd hbad (by simp)
              · obtain ⟨hh, ha, hc⟩ := BakongCall.byShortHash.inj heq
                exact ⟨hcond.1, p, rfl, hcond.2.1, hcond.2.2, hh, ha, hc⟩
            · intro _
              constructor
              · intro _; exact hadopt
              · intro _
                exact ⟨finishCheck_respCheckedBy env m md5 _ _ _ _ _ _,
                  finishCheck_respErrorCode env m md5 _ _ _ _ _ _,
                  finishCheck_respStatus env m md5 _ _ _ _ _ _⟩
          · rw [if_neg hadopt]
            constructor
            · intro hmem
              rw [finishCheck_calls] at hmem
              simp only [List.mem_cons, List.not_mem_nil, or_false] at hmem
              rcases hmem with hbad | heq
              · exact absurd hbad (by simp)
              · obtain ⟨hh, ha, hc⟩ := BakongCall.byShortHash.inj heq
                exact ⟨hcond.1, p, rfl, hcond.2.1, hcond.2.2, hh, ha, hc⟩
            · intro _
              constructor
              · intro hL
                have := Option.some.inj (hL.1.symm.trans
                  (finishCheck_respCheckedBy env m md5 _ _ _ _ _ _))
                exact absurd this.symm (by decide)
              · intro hR; exact absurd hR hadopt
        · rw [if_neg hcond]
          constructor <;> intro hmem <;> rw [finishCheck_calls] at hmem <;> simp at hmem

/-- C4: for every call to `postWithRetry` with resolved retry count `r ≥ 0`,
at least one and at most `1 + r` underlying `post` requests are issued; every
non-final attempt's result was retryable (`isRetryable`); the returned value
is the final attempt's result, which is the first non-retryable result when
one occurs, and if even the returned result is retryable then all `1 + r`
attempts were used. -/
theorem claim_C4_retry_bound (env : ApiEnv) (endpoint : String) (payload : Payload)
    (requiresAuth : Bool) (opts : PostOptions) (oracles : Nat → Bool → FetchOutcome)
    (r : Int) (hr : r = opts.retries.getD env.retryAttempts) (h0 : 0 ≤ r) :
    1 ≤ (postWithRetry env endpoint payload requiresAuth opts oracles).2.length ∧
    (postWithRetry env endpoint payload requiresAuth opts oracles).2.length ≤ 1 + r.toNat ∧
    (∀ i, i + 1 < (postWithRetry env endpoint payload requiresAuth opts oracles).2.length →
      isRetryable (post env endpoint payload requiresAuth opts (oracles i)).1 = true) ∧
    (postWithRetry env endpoint payload requiresAuth opts oracles).1 =
      (post env endpoint payload requiresAuth opts
        (oracles ((postWithRetry env endpoint payload requiresAuth opts oracles).2.length - 1))).1 ∧
    (isRetryable (postWithRetry env endpoint payload requiresAuth opts oracles).1 = true →
      (postWithRetry env endpoint payload requiresAuth opts oracles).2.length = 1 + r.toNat) := by
  unfold postWithRetry
  by_cases hbr : isRetryable (post env endpoint payload requiresAuth opts (oracles 0)).1 = false ∨
      (opts.retries.getD env.retryAttempts : Int) ≤ 0
  · rw [if_pos hbr]
    refine ⟨by simp, by simp, ?_, by simp, ?_⟩
    · intro i hi
      simp only [List.length_singleton] at hi
      omega
    · intro hco
      simp only [List.length_singleton]
      rcases hbr with h | h
      · simp only at hco
        rw [hco] at h
        exact absurd h (by simp)
      · have : r = 0 := by omega
        rw [this]
        rfl
  · rw [if_neg hbr]
    push_neg at hbr
    obtain ⟨hret, hpos⟩ := hbr
    have hret' : isRetryable (post env endpoint payload requiresAuth opts (oracles 0)).1 = true := by
      cases h : isRetryable (post env endpoint payload requiresAuth opts (oracles 0)).1 with
      | false => exact absurd h hret
      | true => rfl
    have := postWithRetryLoop_spec env endpoint payload requiresAuth opts oracles
      (opts.retries.getD env.retryAttempts).toNat 1
      (post env endpoint payload requiresAuth opts (oracles 0)).1
      [(post env endpoint payload requiresAuth opts (oracles 0)).2]
      (by simp) (le_refl 1) (by simp) (by intro j hj; omega) hret'
    obtain ⟨ha, hb, hc, hd, he⟩ := this
    simp only [List.length_singleton] at ha hb he
    have hrn : (opts.retries.getD env.retryAttempts).toNat = r.toNat := by rw [hr]
    refine ⟨by omega, by omega, hc, hd, ?_⟩
    · intro hco
      have := he hco
      omega

/-- C5: when a `post` request's fetch fails with a timeout abort or one of
the network error codes ENETUNREACH / EHOSTUNREACH / ETIMEDOUT /
ECONNREFUSED / ECONNRESET, and IPv4 fallback is enabled and the call was not
already forced to IPv4, `post` retries the same request (same endpoint and
payload) exactly once over the IPv4-only agent; no call ever performs more
than two fetches (recursion depth at most one); and if the fallback attempt
also times out, the result has responseCode -1, errorCode 'TIMEOUT' and a
message mentioning the IPv4 fallback. -/
theorem claim_C5_ipv4_fallback (env : ApiEnv) (endpoint : String) (payload : Payload)
    (requiresAuth : Bool) (opts : PostOptions) (oracle : Bool → FetchOutcome)
    (htok : ¬ (requiresAuth = true ∧ optTruthy env.apiToken = false))
    (hfb : env.enableIpv4Fallback = true) (hforce : opts.forceIpv4 = false)
    (hfail : oracle false = .abortError ∨
      ∃ code msg, oracle false = .thrown code msg ∧
        retryableNetCodes.contains (jsToString code) = true) :
    (post env endpoint payload requiresAuth opts oracle).2 =
      [{ endpoint := endpoint, payload := payload, authHeader := requiresAuth,
         ipv4Agent := false },
       { endpoint := endpoint, payload := payload, authHeader := requiresAuth,
         ipv4Agent := true }] ∧
    (post env endpoint payload requiresAuth opts oracle).1 =
      settleOutcome (opts.timeoutMs.getD env.timeoutMs) true (oracle true) ∧
    (∀ (opts' : PostOptions) (oracle' : Bool → FetchOutcome),
      (post env endpoint payload requiresAuth opts' oracle').2.length ≤ 2) ∧
    (oracle true = .abortError →
      (post env endpoint payload requiresAuth opts oracle).1 =
        timeoutResult (opts.timeoutMs.getD env.timeoutMs) true ∧
      ∃ msg, (post env endpoint payload requiresAuth opts oracle).1.responseMessage = .str msg ∧
        strContains msg "IPv4 fallback" = true) := by
  have hworthy : fallbackWorthy (oracle false) = true := by
    rcases hfail with h | ⟨code, msg, h, hc⟩
    · rw [h]; rfl
    · rw [h]; unfold fallbackWorthy; exact hc
  have hpost := post_fallback env endpoint payload requiresAuth opts oracle htok hfb hforce hworthy
  refine ⟨by rw [hpost], by rw [hpost], ?_, ?_⟩
  · intro opts' oracle'
    exact post_trace_len env endpoint payload requiresAuth opts' oracle'
  · intro hab
    constructor
    · rw [hpost, hab]
      rfl
    · rw [hpost, hab]
      exact timeout_msg_mentions_fallback (opts.timeoutMs.getD env.timeoutMs)

/-- C6: the key invariant — every entry of the in-memory payments map is
keyed by `generateMD5` of its own stored `qrString` — is preserved by every
server operation that touches the map (generate, check, mark-paid, and the
background deeplink update), because the insert uses the content hash as the
key and every later update stores the record back under the same key with
`qrString` unchanged. -/
theorem claim_C6_md5_key_invariant : ∀ (env : ServerEnv) (m : PMap) (op : ServerOp),
    KeyInv env m → KeyInv env (applyOp env m op) := by
  intro env m op hInv
  cases op with
  | generate body libRes qrImage deeplinkRes =>
    unfold applyOp
    simp only []
    rcases generateHandler_newPayments_cases env m body libRes qrImage deeplinkRes with
      hm | ⟨md5v, rec, heq, hkey⟩
    · rw [hm]; exact hInv
    · rw [heq]; exact keyInv_mapSet env m md5v rec hInv hkey
  | check md5 primary fallback =>
    unfold applyOp
    simp only []
    rcases checkHandler_newPayments_cases env m md5 primary fallback with
      hm | ⟨payment, result, status, checkedBy, hpay, hupd⟩
    · rw [hm]; exact hInv
    · rw [hupd]
      exact keyInv_applyCheckUpdate env m md5 payment result status checkedBy hpay hInv
  | markPaid md5 fa th =>
    unfold applyOp markPaidHandler
    simp only []
    by_cases h1 : isDemoManualSettleEnabled env = false
    · rw [if_pos h1]; exact hInv
    · rw [if_neg h1]
      by_cases h2 : md5 = ""
      · rw [if_pos h2]; exact hInv
      · rw [if_neg h2]
        cases hget : mapGet m md5 with
        | none => exact hInv
        | some p =>
          simp only []
          have hkey : md5 = generateMD5 env.crypto p.qrString :=
            hInv (md5, p) (mapGet_some_mem hget)
          exact keyInv_mapSet env m md5 _ hInv hkey
  | deeplinkUpdate md5 deeplinkRes =>
    unfold applyOp backgroundDeeplinkUpdate
    simp only []
    by_cases hsl : jsTruthy (jsOr (match deeplinkRes.data with
      | some d => d.shortLink
      | none => JSVal.undef) JSVal.null) = false
    · rw [if_pos hsl]; exact hInv
    · rw [if_neg hsl]
      cases hget : mapGet m md5 with
      | none => exact hInv
      | some p =>
        simp only []
        have hkey : md5 = generateMD5 env.crypto p.qrString :=
          hInv (md5, p) (mapGet_some_mem hget)
        exact keyInv_mapSet env m md5 _ hInv hkey

/-- C7: an 'error' classification is recoverable: when POST
/api/payment/check runs on a payment present in the ledger and the resolved
status reported in the response is 'error', the stored record is updated
only in its `lastProviderError` field; every other field (status,
billNumber, amount, currency, qrString, md5, createdAt, deeplinkUrl, ...) is
left unchanged, so the payment remains eligible to be re-checked. -/
theorem claim_C7_error_frame : ∀ (env : ServerEnv) (m : PMap) (md5 : String)
    (primary fallback : ApiResult) (p : Payment),
    mapGet m md5 = some p →
    respStatus (checkHandler env m md5 primary fallback).response = some "error" →
    ∃ e, mapGet (checkHandler env m md5 primary fallback).newPayments md5 =
      some { p with lastProviderError := some e } := by
  intro env m md5 primary fallback p hget hstat
  by_cases hmd5 : md5 = ""
  · unfold checkHandler at hstat
    rw [if_pos hmd5] at hstat
    simp [respStatus] at hstat
  · unfold checkHandler at hstat ⊢
    rw [if_neg hmd5, hget] at hstat ⊢
    simp only [] at hstat ⊢
    by_cases hman : jsTruthy p.manualSettledAt = true
    · simp only [hman, if_true] at hstat
      simp [respStatus, manualBody] at hstat
    · rw [if_neg hman] at hstat ⊢
      unfold mainCheck at hstat ⊢
      simp only [] at hstat ⊢
      by_cases hcond : resolvePaymentStatus (some primary) = "pending" ∧
          p.qrString ≠ "" ∧ optTruthy env.apiToken = true
      · rw [if_pos hcond] at hstat ⊢
        by_cases hadopt : resolvePaymentStatus (some fallback) = "completed" ∨
            resolvePaymentStatus (some fallback) = "failed"
        · rw [if_pos hadopt] at hstat
          rw [finishCheck_respStatus] at hstat
          rcases hadopt with h | h <;> rw [h] at hstat <;> simp at hstat
        · rw [if_neg hadopt] at hstat
          rw [finishCheck_respStatus] at hstat
          rw [hcond.1] at hstat
          simp at hstat
      · rw [if_neg hcond] at hstat ⊢
        rw [finishCheck_respStatus] at hstat
        rw [finishCheck_newPayments]
        have hst : resolvePaymentStatus (some primary) = "error" := Option.some.inj hstat
        unfold applyCheckUpdate
        rw [hst]
        simp only []
        rw [if_neg (by decide), if_neg (by decide), if_pos trivial]
        exact ⟨_, mapGet_mapSet_self m md5 _⟩

/-- C8: when the service holds no API token, every authenticated
BakongAPIService method (`checkTransactionByMD5`, `checkTransactionByHash`,
`checkTransactionByShortHash`, `checkBakongAccount`) returns the
MISSING_TOKEN result `{responseCode: -1, errorCode: 'MISSING_TOKEN',
responseMessage: 'Bakong API token is missing'}` immediately: no fetch is
issued (empty fetch traces) and no retry attempt is consumed (a single
`post` invocation). -/
theorem claim_C8_missing_token (env : ApiEnv) (h : optTruthy env.apiToken = false)
    (md5Hash hash shortHash accountId : String) (amount : Rat) (currency : String)
    (oracles : Nat → Bool → FetchOutcome) (oracle : Bool → FetchOutcome) :
    checkTransactionByMD5 env md5Hash oracles = (missingTokenResult, [[]]) ∧
    checkTransactionByHash env hash oracles = (missingTokenResult, [[]]) ∧
    checkTransactionByShortHash env shortHash amount currency oracles =
      (missingTokenResult, [[]]) ∧
    checkBakongAccount env accountId oracle = (missingTokenResult, []) :=
  ⟨postWithRetry_missing_token env _ _ _ oracles h,
   postWithRetry_missing_token env _ _ _ oracles h,
   postWithRetry_missing_token env _ _ _ oracles h,
   post_missing_token env _ _ _ oracle h⟩

/-- C9: `resolveCurrency` maps exactly the string 'KHR' to the KHR currency
code and every other input (lowercase 'khr', undefined, unsupported strings)
to the USD code; consequently `generateIndividualQR` and `generateMerchantQR`
encode any non-'KHR' currency argument as USD in the info handed to the
external library, and acceptance of the request does not depend on the
currency argument (no rejection). -/
theorem claim_C9_resolveCurrency_usd :
    (∀ v : JSVal, resolveCurrency v = KhqrCurrency.khr ↔ v = .str "KHR") ∧
    (∀ (crypto : CryptoEnv) (nowMs : Nat) (args : GenArgs) (libRes : LibResult)
        (info : IndividualInfo),
      (generateIndividualQR crypto nowMs args libRes).sentInfo = some info →
      args.currency ≠ .str "KHR" → info.currency = KhqrCurrency.usd) ∧
    (∀ (crypto : CryptoEnv) (nowMs : Nat) (args : GenArgs) (libRes : LibResult),
      ((generateIndividualQR crypto nowMs args libRes).sentInfo).isSome =
        ((generateIndividualQR crypto nowMs { args with currency := .str "USD" }
          libRes).sentInfo).isSome) ∧
    (∀ (crypto : CryptoEnv) (nowMs : Nat) (args : GenArgs) (libRes : LibResult)
        (info : MerchantInfo),
      (generateMerchantQR crypto nowMs args libRes).sentInfo = some info →
      args.currency ≠ .str "KHR" → info.currency = KhqrCurrency.usd) ∧
    (∀ (crypto : CryptoEnv) (nowMs : Nat) (args : GenArgs) (libRes : LibResult),
      ((generateMerchantQR crypto nowMs args libRes).sentInfo).isSome =
        ((generateMerchantQR crypto nowMs { args with currency := .str "USD" }
          libRes).sentInfo).isSome) := by
  refine ⟨?_, ?_, ?_, ?_, ?_⟩
  · intro v
    constructor
    · intro h
      by_contra hne
      rw [resolveCurrency_ne v hne] at h
      exact absurd h (by decide)
    · intro h
      unfold resolveCurrency
      rw [if_pos h]
  · intro crypto nowMs args libRes info hsi hne
    unfold generateIndividualQR at hsi
    cases hval : validateRequiredFields args.accountId args.merchantName with
    | some e =>
      rw [hval] at hsi
      simp at hsi
    | none =>
      rw [hval] at hsi
      simp only [] at hsi
      by_cases hlib : libRes.statusCode = 0
      · rw [if_pos hlib] at hsi
        rw [← Option.some.inj hsi]
        simp only []
        by_cases hcu : args.currency = JSVal.undef
        · rw [if_pos hcu]
          decide
        · rw [if_neg hcu]
          exact resolveCurrency_ne args.currency hne
      · rw [if_neg hlib] at hsi
        rw [← Option.some.inj hsi]
        simp only []
        by_cases hcu : args.currency = JSVal.undef
        · rw [if_pos hcu]
          decide
        · rw [if_neg hcu]
          exact resolveCurrency_ne args.currency hne
  · intro crypto nowMs args libRes
    unfold generateIndividualQR
    simp only []
    cases hval : validateRequiredFields args.accountId args.merchantName with
    | some e => rfl
    | none =>
      by_cases hlib : libRes.statusCode = 0
      · rw [if_pos hlib, if_pos hlib]
        rfl
      · rw [if_neg hlib, if_neg hlib]
        rfl
  · intro crypto nowMs args libRes info hsi hne
    unfold generateMerchantQR at hsi
    cases hval : validateRequiredFields args.accountId args.merchantName with
    | some e =>
      rw [hval] at hsi
      simp at hsi
    | none =>
      rw [hval] at hsi
      simp only [] at hsi
      by_cases hlib : libRes.statusCode = 0
      · rw [if_pos hlib] at hsi
        rw [← Option.some.inj hsi]
        simp only []
        by_cases hcu : args.currency = JSVal.undef
        · rw [if_pos hcu]
          decide
        · rw [if_neg hcu]
          exact resolveCurrency_ne args.currency hne
      · rw [if_neg hlib] at hsi
        rw [← Option.some.inj hsi]
        simp only []
        by_cases hcu : args.currency = JSVal.undef
        · rw [if_pos hcu]
          decide
        · rw [if_neg hcu]
          exact resolveCurrency_ne args.currency hne
  · intro crypto nowMs args libRes
    unfold generateMerchantQR
    simp only []
    cases hval : validateRequiredFields args.accountId args.merchantName with
    | some e => rfl
    | none =>
      by_cases hlib : libRes.statusCode = 0
      · rw [if_pos hlib, if_pos hlib]
        rfl
      · rw [if_neg hlib, if_neg hlib]
        rfl

/-- C10: once a record's `manualSettledAt` field is set (which POST
/api/payment/mark-paid does, to the current timestamp), every subsequent
POST /api/payment/check for that record's md5 returns success `true`, status
'completed' and checkedBy 'manual' without contacting the provider (no
Bakong calls) and without modifying the stored records. -/
theorem claim_C10_manual_settle :
    (∀ (env : ServerEnv) (m : PMap) (md5 : String) (fa th : JSVal) (p : Payment),
      isDemoManualSettleEnabled env = true → md5 ≠ "" → mapGet m md5 = some p →
      ∃ q, mapGet (markPaidHandler env m md5 fa th).2 md5 = some q ∧
        q.manualSettledAt = .str env.now) ∧
    (∀ (env : ServerEnv) (m : PMap) (md5 : String) (primary fallback : ApiResult) (p : Payment),
      mapGet m md5 = some p → jsTruthy p.manualSettledAt = true → md5 ≠ "" →
      (checkHandler env m md5 primary fallback).calls = [] ∧
      (checkHandler env m md5 primary fallback).newPayments = m ∧
      respSuccess (checkHandler env m md5 primary fallback).response = some true ∧
      respStatus (checkHandler env m md5 primary fallback).response = some "completed" ∧
      respCheckedBy (checkHandler env m md5 primary fallback).response = some "manual") := by
  constructor
  · intro env m md5 fa th p hen hmd5 hget
    unfold markPaidHandler
    rw [if_neg (by simp [hen]), if_neg hmd5, hget]
    exact ⟨_, mapGet_mapSet_self m md5 _, rfl⟩
  · intro env m md5 primary fallback p hget hman hmd5
    unfold checkHandler
    rw [if_neg hmd5, hget]
    simp [hman, respSuccess, respStatus, respCheckedBy, manualBody]

/-!
Witness theorems: each applies its claim theorem at a concrete input and
discharges the hypotheses there.
-/

/-- Witness for C1 (amended) at a concrete `failed → completed` rewrite. -/
theorem claim_C1_amended_status_changes_witness :
    mapGet [("k", sampleFailedPayment)] "k" = some sampleFailedPayment ∧
    mapGet (checkHandler sampleEnv [("k", sampleFailedPayment)] "k" sampleDoneRes
      sampleEmptyRes).newPayments "k" = some sampleCompletedRecord ∧
    sampleCompletedRecord.status ≠ sampleFailedPayment.status ∧
    (sampleCompletedRecord.status = "completed" ∨ sampleCompletedRecord.status = "failed") :=
  ⟨by decide, by decide, by decide,
   claim_C1_amended_status_changes.1 sampleEnv [("k", sampleFailedPayment)] "k" sampleDoneRes
     sampleEmptyRes "k" sampleFailedPayment sampleCompletedRecord
     (by decide) (by decide) (by decide)⟩

/-- Witness for C3 at a pending primary lookup with a settled fallback. -/
theorem claim_C3_short_hash_fallback_witness :
    BakongCall.byShortHash "01234567" 5 "USD" ∈
      (checkHandler sampleEnv [("k", samplePendingPayment)] "k" samplePendingRes
        sampleDoneRes).calls ∧
    (resolvePaymentStatus (some samplePendingRes) = "pending" ∧
      ∃ p, mapGet [("k", samplePendingPayment)] "k" = some p ∧ p.qrString ≠ "" ∧
        optTruthy sampleEnv.apiToken = true ∧
        "01234567" = generateShortHash sampleEnv.crypto p.qrString ∧
        (5 : Rat) = p.amount ∧ "USD" = p.currency) ∧
    ((respCheckedBy (checkHandler sampleEnv [("k", samplePendingPayment)] "k" samplePendingRes
          sampleDoneRes).response = some "short_hash" ∧
      respErrorCode (checkHandler sampleEnv [("k", samplePendingPayment)] "k" samplePendingRes
          sampleDoneRes).response = some sampleDoneRes.errorCode ∧
      respStatus (checkHandler sampleEnv [("k", samplePendingPayment)] "k" samplePendingRes
          sampleDoneRes).response = some (resolvePaymentStatus (some sampleDoneRes))) ↔
      (resolvePaymentStatus (some sampleDoneRes) = "completed" ∨
       resolvePaymentStatus (some sampleDoneRes) = "failed")) :=
  ⟨by decide,
   (claim_C3_short_hash_fallback sampleEnv [("k", samplePendingPayment)] "k" samplePendingRes
     sampleDoneRes "01234567" 5 "USD").1 (by decide),
   (claim_C3_short_hash_fallback sampleEnv [("k", samplePendingPayment)] "k" samplePendingRes
     sampleDoneRes "01234567" 5 "USD").2 (by decide)⟩

/-- Witness for C4 with the default single retry and a network that always
times out. -/
theorem claim_C4_retry_bound_witness :
    1 ≤ (postWithRetry sampleApiEnv "/e" (.md5Query "m") true {} sampleOracles).2.length ∧
    (postWithRetry sampleApiEnv "/e" (.md5Query "m") true {} sampleOracles).2.length ≤
      1 + (1 : Int).toNat ∧
    (∀ i, i + 1 < (postWithRetry sampleApiEnv "/e" (.md5Query "m") true {}
        sampleOracles).2.length →
      isRetryable (post sampleApiEnv "/e" (.md5Query "m") true {} (sampleOracles i)).1 = true) ∧
    (postWithRetry sampleApiEnv "/e" (.md5Query "m") true {} sampleOracles).1 =
      (post sampleApiEnv "/e" (.md5Query "m") true {}
        (sampleOracles ((postWithRetry sampleApiEnv "/e" (.md5Query "m") true {}
          sampleOracles).2.length - 1))).1 ∧
    (isRetryable (postWithRetry sampleApiEnv "/e" (.md5Query "m") true {} sampleOracles).1 =
        true →
      (postWithRetry sampleApiEnv "/e" (.md5Query "m") true {} sampleOracles).2.length =
        1 + (1 : Int).toNat) :=
  claim_C4_retry_bound sampleApiEnv "/e" (.md5Query "m") true {} sampleOracles 1
    (by decide) (by decide)

/-- Witness for C5 at a first fetch that aborts on timeout. -/
theorem claim_C5_ipv4_fallback_witness :
    (post sampleApiEnv "/e" (.md5Query "m") true {} sampleOracle).2 =
      [{ endpoint := "/e", payload := .md5Query "m", authHeader := true, ipv4Agent := false },
       { endpoint := "/e", payload := .md5Query "m", authHeader := true, ipv4Agent := true }] ∧
    (post sampleApiEnv "/e" (.md5Query "m") true {} sampleOracle).1 =
      settleOutcome (({} : PostOptions).timeoutMs.getD sampleApiEnv.timeoutMs) true
        (sampleOracle true) ∧
    (∀ (opts' : PostOptions) (oracle' : Bool → FetchOutcome),
      (post sampleApiEnv "/e" (.md5Query "m") true opts' oracle').2.length ≤ 2) ∧
    (sampleOracle true = .abortError →
      (post sampleApiEnv "/e" (.md5Query "m") true {} sampleOracle).1 =
        timeoutResult (({} : PostOptions).timeoutMs.getD sampleApiEnv.timeoutMs) true ∧
      ∃ msg, (post sampleApiEnv "/e" (.md5Query "m") true {} sampleOracle).1.responseMessage =
        .str msg ∧ strContains msg "IPv4 fallback" = true) :=
  claim_C5_ipv4_fallback sampleApiEnv "/e" (.md5Query "m") true {} sampleOracle
    (by decide) (by decide) (by decide) (Or.inl rfl)

/-- Witness for C6 on a one-entry ledger and a mark-paid operation. -/
theorem claim_C6_md5_key_invariant_witness :
    KeyInv sampleEnv [("k", sampleFailedPayment)] ∧
    KeyInv sampleEnv (applyOp sampleEnv [("k", sampleFailedPayment)]
      (.markPaid "k" .undef .undef)) :=
  ⟨by unfold KeyInv; decide,
   claim_C6_md5_key_invariant sampleEnv [("k", sampleFailedPayment)]
     (.markPaid "k" .undef .undef) (by unfold KeyInv; decide)⟩

/-- Witness for C7 at a provider timeout on a pending payment. -/
theorem claim_C7_error_frame_witness :
    mapGet [("k", samplePendingPayment)] "k" = some samplePendingPayment ∧
    respStatus (checkHandler sampleEnv [("k", samplePendingPayment)] "k" sampleTimeoutRes
      sampleEmptyRes).response = some "error" ∧
    ∃ e, mapGet (checkHandler sampleEnv [("k", samplePendingPayment)] "k" sampleTimeoutRes
      sampleEmptyRes).newPayments "k" =
        some { samplePendingPayment with lastProviderError := some e } :=
  ⟨by decide, by decide,
   claim_C7_error_frame sampleEnv [("k", samplePendingPayment)] "k" sampleTimeoutRes
     sampleEmptyRes samplePendingPayment (by decide) (by decide)⟩

/-- Witness for C8 on a tokenless configuration. -/
theorem claim_C8_missing_token_witness :
    optTruthy sampleApiEnvNoToken.apiToken = false ∧
    checkTransactionByMD5 sampleApiEnvNoToken "m" sampleOracles = (missingTokenResult, [[]]) ∧
    checkTransactionByHash sampleApiEnvNoToken "h" sampleOracles = (missingTokenResult, [[]]) ∧
    checkTransactionByShortHash sampleApiEnvNoToken "s" 5 "USD" sampleOracles =
      (missingTokenResult, [[]]) ∧
    checkBakongAccount sampleApiEnvNoToken "a" sampleOracle = (missingTokenResult, []) := by
  have h := claim_C8_missing_token sampleApiEnvNoToken (by decide) "m" "h" "s" "a" 5 "USD"
    sampleOracles sampleOracle
  exact ⟨by decide, h.1, h.2.1, h.2.2.1, h.2.2.2⟩

/-- Witness for C9 at the lowercase currency string 'khr'. -/
theorem claim_C9_resolveCurrency_usd_witness :
    sampleKhrArgs.currency ≠ .str "KHR" ∧
    (generateIndividualQR sampleCrypto 0 sampleKhrArgs sampleLibOk).sentInfo.map
      IndividualInfo.currency = some KhqrCurrency.usd := by
  constructor
  · decide
  · cases hsi : (generateIndividualQR sampleCrypto 0 sampleKhrArgs sampleLibOk).sentInfo with
    | none => exact absurd hsi (by decide)
    | some info =>
      rw [Option.map_some']
      exact congrArg some (claim_C9_resolveCurrency_usd.2.1 sampleCrypto 0 sampleKhrArgs
        sampleLibOk info hsi (by decide))

/-- Witness for C10 at a manually settled record. -/
theorem claim_C10_manual_settle_witness :
    (∃ q, mapGet (markPaidHandler sampleEnv [("k", sampleFailedPayment)] "k" .undef .undef).2
        "k" = some q ∧ q.manualSettledAt = .str sampleEnv.now) ∧
    ((checkHandler sampleEnv [("k", sampleManualPayment)] "k" sampleDoneRes
        sampleEmptyRes).calls = [] ∧
     (checkHandler sampleEnv [("k", sampleManualPayment)] "k" sampleDoneRes
        sampleEmptyRes).newPayments = [("k", sampleManualPayment)] ∧
     respSuccess (checkHandler sampleEnv [("k", sampleManualPayment)] "k" sampleDoneRes
        sampleEmptyRes).response = some true ∧
     respStatus (checkHandler sampleEnv [("k", sampleManualPayment)] "k" sampleDoneRes
        sampleEmptyRes).response = some "completed" ∧
     respCheckedBy (checkHandler sampleEnv [("k", sampleManualPayment)] "k" sampleDoneRes
        sampleEmptyRes).response = some "manual") :=
  ⟨claim_C10_manual_settle.1 sampleEnv [("k", sampleFailedPayment)] "k" .undef .undef
     sampleFailedPayment (by decide) (by decide) (by decide),
   claim_C10_manual_settle.2 sampleEnv [("k", sampleManualPayment)] "k" sampleDoneRes
     sampleEmptyRes sampleManualPayment (by decide) (by decide) (by decide)⟩
